import Mathlib

/-!
Verification of the grokboard course-generator core against its
natural-language specification.

The development shallowly embeds the relevant JavaScript source:

* the course document model (the JSON shape produced by the LLM and consumed
  by the server and the exporter) as Lean structures with `Option` fields,
  mirroring the dynamic JS objects in which any field may be absent;
* `extractAndParseJSON` (server, `part_006` lines 229-334): code-fence
  matching, the depth-counted brace scan, and the trailing clean-up steps;
* the parse stage of `generateCourseContent` (`part_006` lines 463-525);
* the storage step of `app.post('/api/upload')` (`part_006` lines 802-828);
* `app.get('/api/courses')` (`part_006` lines 968-1005) with its hard-coded
  cutoff-date filter;
* the filesystem effects of `app.get('/api/export/:courseId')`
  (`part_006` lines 1007-1066);
* `generateStandaloneApp` (`part_006` lines 1069-1638), the static exporter;
* `removeQuestionOption` (client `AdminViewer.jsx` lines 76-91).

Strings are modelled as `List Char`; JS numbers used as indices are `Int`.
-/

namespace Grokboard

/-- Shorthand: the character list of a string literal. -/
def S (s : String) : List Char := s.data

/-! ## Course document model

The JSON document shape requested from the model by the prompt of
`generateCourseContent` (`part_006` lines 354-402) and consumed by the rest
of the server.  Every field is `Option`al because the document is whatever
`JSON.parse` produced: any key may be missing.  Field order in each
structure is the key order of the prompt's schema (which is the insertion
order of a parsed well-formed reply); `id`/`createdAt` on `Course` come
last because `app.post('/api/upload')` assigns them after parsing. -/

structure TestCase where
  input : Option String
  expectedOutput : Option String
deriving DecidableEq

structure Exercise where
  id : Option String
  title : Option String
  description : Option String
  starterCode : Option String
  language : Option String
  testCases : Option (List TestCase)
  solution : Option String
deriving DecidableEq

structure Question where
  id : Option String
  qtype : Option String
  question : Option String
  options : Option (List String)
  correctAnswer : Option Int
  explanation : Option String
deriving DecidableEq

structure Lesson where
  id : Option String
  title : Option String
  content : Option String
  questions : Option (List Question)
  codingExercises : Option (List Exercise)
deriving DecidableEq

structure Course where
  title : Option String
  description : Option String
  lessons : Option (List Lesson)
  id : Option String
  createdAt : Option String
deriving DecidableEq

/-! ## Admin editor: removing a question option

`removeQuestionOption` in `AdminViewer.jsx` (lines 76-91).  The source
splices one option out of the copied options array and then clamps
`correctAnswer` down to the new last index when it points past the end;
when only one option is left it does nothing. -/

/-- `removeQuestionOption` (`AdminViewer.jsx` 76-91) restricted to the data
it touches: the options array and the `correctAnswer` index of one
question.  `List.eraseIdx` matches `splice(optionIndex, 1)` (both remove
nothing when the index is out of range). -/
def removeQuestionOption (options : List String) (correctAnswer : Int)
    (optionIndex : Nat) : List String × Int :=
  if 1 < options.length then
    (options.eraseIdx optionIndex,
      if ((options.eraseIdx optionIndex).length : Int) ≤ correctAnswer then
        ((options.eraseIdx optionIndex).length : Int) - 1
      else correctAnswer)
  else (options, correctAnswer)

/-! ## Upload storage step

`app.post('/api/upload')` (`part_006` lines 802-828): after
`generateCourseContent` returns the parsed document, the handler assigns
`courseData.id` and `courseData.createdAt` and inserts a row whose
`course_data` column is that object.  No other field of the parsed
document is read or modified before storage. -/

structure CourseRow where
  id : String
  title : Option String
  description : Option String
  created_at : String
  updated_at : String
  course_data : Course
deriving DecidableEq

/-- The storage step of `app.post('/api/upload')` (`part_006` 802-828):
assign `id` and `createdAt` on the parsed document and insert the row. -/
def uploadStore (courseData : Course) (courseId now : String) : CourseRow :=
  let cd := { courseData with id := some courseId, createdAt := some now }
  { id := courseId
    title := cd.title
    description := cd.description
    created_at := now
    updated_at := now
    course_data := cd }

/-! ## Course listing

`app.get('/api/courses')` (`part_006` lines 968-1005): the stored rows are
filtered by `created_at >= '2024-12-06T00:00:00.000Z'`, ordered by
`created_at` descending, and mapped to summaries whose `lessonCount` is
`course_data?.lessons?.length || 0`.  Timestamps are modelled as integers
(epoch milliseconds). -/

structure DbRow where
  id : String
  title : Option String
  description : Option String
  created_at : Nat
  course_data : Course
deriving DecidableEq

/-- The hard-coded cutoff `'2024-12-06T00:00:00.000Z'` of
`app.get('/api/courses')`, as epoch milliseconds. -/
def cutoffDate : Nat := 1733443200000

structure CourseSummary where
  id : String
  title : Option String
  description : Option String
  createdAt : Nat
  lessonCount : Nat
deriving DecidableEq

/-- One element of the response of `app.get('/api/courses')`:
`lessonCount` is `row.course_data?.lessons?.length || 0`. -/
def summarize (r : DbRow) : CourseSummary :=
  { id := r.id
    title := r.title
    description := r.description
    createdAt := r.created_at
    lessonCount := (r.course_data.lessons.map List.length).getD 0 }

/-- Descending order on `created_at`, the `order('created_at', { ascending:
false })` of the listing query. -/
def newerFirst (a b : DbRow) : Bool := decide (b.created_at ≤ a.created_at)

/-- `app.get('/api/courses')` (`part_006` 968-1005): filter by the cutoff,
sort newest first, summarize. -/
def listCourses (db : List DbRow) : List CourseSummary :=
  (((db.filter fun r => decide (cutoffDate ≤ r.created_at)).mergeSort
      newerFirst).map summarize)

/-! ## Response extractor

`extractAndParseJSON` (`part_006` lines 229-334).  The stages, in source
order: trim; try the regex for a fenced block labeled json; else try the
regex for a plain fenced block; else scan from the first brace with a
depth counter that ignores characters inside double-quoted strings
(respecting backslash escapes); then trim, repair a missing leading or
trailing brace, and fail only when the candidate is empty. -/

/-- The whitespace class used both for `String.prototype.trim` and for the
regex class `\s`, restricted to its ASCII members (the inputs of interest
are ASCII). -/
def jsWsChar (c : Char) : Bool :=
  c = ' ' || c = '\t' || c = '\n' || c = '\r' || c = '\x0b' || c = '\x0c'

/-- `String.prototype.trim`: drop `jsWsChar` characters from both ends. -/
def jsTrim (cs : List Char) : List Char :=
  ((cs.dropWhile jsWsChar).reverse.dropWhile jsWsChar).reverse

/-- Does `pat` occur at the head of `cs`? -/
def startsWithSeq : List Char → List Char → Bool
  | [], _ => true
  | _ :: _, [] => false
  | p :: ps, c :: cs => p = c && startsWithSeq ps cs

/-- Split `cs` at the first occurrence of `pat`: `some (before, after)`
with `cs = before ++ pat ++ after`, or `none` when `pat` never occurs. -/
def findSplitSeq (pat : List Char) : List Char → Option (List Char × List Char)
  | [] => if startsWithSeq pat [] then some ([], []) else none
  | c :: cs =>
    if startsWithSeq pat (c :: cs) then some ([], (c :: cs).drop pat.length)
    else
      match findSplitSeq pat cs with
      | some (a, b) => some (c :: a, b)
      | none => none

/-- Does `pat` occur anywhere in `cs`? -/
def containsSeq (pat cs : List Char) : Bool := (findSplitSeq pat cs).isSome

/-- The last index at which `c` occurs (JS `lastIndexOf`). -/
def lastIdxOf (c : Char) : List Char → Option Nat
  | [] => none
  | d :: cs =>
    match lastIdxOf c cs with
    | some i => some (i + 1)
    | none => if d = c then some 0 else none

/-- The first index at which `c` occurs (JS `indexOf`). -/
def firstIdxOf (c : Char) : List Char → Option Nat
  | [] => none
  | d :: cs => if d = c then some 0 else (firstIdxOf c cs).map (· + 1)

/-- The three-backtick fence delimiter. -/
def bt3 : List Char := ['`', '`', '`']

/-- The opening of a json-labeled fence, the literal of the first regex. -/
def fenceJson : List Char := ['`', '`', '`', 'j', 's', 'o', 'n']

/-- A newline followed by a closing fence, the tail of both fence
regexes. -/
def nlBt3 : List Char := ['\n', '`', '`', '`']

/-- One attempt of the fence regex `OPEN\s*\n([\s\S]*?)\n&#96;&#96;&#96;`
anchored at the head of `cs` (OPEN is `lbl`).  The greedy `\s*`
backtracked against the mandatory `\n` consumes the whitespace run up to
and including its last newline; the lazy group then reaches to the first
later `\n` + three backticks. -/
def tryFenceAt (lbl : List Char) (cs : List Char) : Option (List Char) :=
  if startsWithSeq lbl cs then
    let rest := cs.drop lbl.length
    let run := rest.takeWhile jsWsChar
    match lastIdxOf '\n' run with
    | none => none
    | some j =>
      match findSplitSeq nlBt3 (rest.drop (j + 1)) with
      | some (interior, _) => some interior
      | none => none
  else none

/-- Leftmost match of the fence regex: try every start position from the
left, as the JS regex engine does. -/
def fenceSearch (lbl : List Char) : List Char → Option (List Char)
  | [] => none
  | c :: cs =>
    match tryFenceAt lbl (c :: cs) with
    | some interior => some interior
    | none => fenceSearch lbl cs

/-- The depth-counted scan of `extractAndParseJSON` (`part_006` 253-279),
started at the first brace: returns the number of characters up to and
including the one at which the depth returned to zero, or `none` when the
input ends first.  State: current depth, whether inside a double-quoted
string, whether the previous character was an unconsumed backslash. -/
def scanLoop : List Char → Int → Bool → Bool → Option Nat
  | [], _, _, _ => none
  | c :: cs, depth, inStr, esc =>
    if esc then (scanLoop cs depth inStr false).map (· + 1)
    else if c = '\\' then (scanLoop cs depth inStr true).map (· + 1)
    else if c = '"' then (scanLoop cs depth (!inStr) false).map (· + 1)
    else if inStr then (scanLoop cs depth inStr false).map (· + 1)
    else
      let depth' := if c = '{' then depth + 1 else if c = '}' then depth - 1 else depth
      if depth' = 0 then some 1 else (scanLoop cs depth' false false).map (· + 1)

/-- The direct-scan branch of `extractAndParseJSON` (`part_006` 245-291):
from the first `{`, keep the scanned span when the scan closed, or
everything from the first `{` when the input ended first; keep the whole
input when there is no `{` at all. -/
def braceExtract (s0 : List Char) : List Char :=
  match firstIdxOf '{' s0 with
  | none => s0
  | some fb =>
    let tail := s0.drop fb
    match scanLoop tail 0 false false with
    | some n => tail.take n
    | none => tail

/-- The candidate text produced by `extractAndParseJSON` just before its
final emptiness check (`part_006` 231-327): fences first, then the brace
scan, then trim and the leading-`{` / trailing-`}` repairs (the trailing
repair keeps the text unchanged when the last `}` sits at index 0,
mirroring `lastBrace > 0`). -/
def candidateOf (content : List Char) : List Char :=
  let s0 := jsTrim content
  let s1 :=
    match fenceSearch fenceJson s0 with
    | some interior => jsTrim interior
    | none =>
      match fenceSearch bt3 s0 with
      | some interior => jsTrim interior
      | none => braceExtract s0
  let s2 := jsTrim s1
  let s3 :=
    if s2.head? = some '{' then s2
    else
      match firstIdxOf '{' s2 with
      | some i => s2.drop i
      | none => s2
  if s3.getLast? = some '}' then s3
  else
    match lastIdxOf '}' s3 with
    | some i => if 0 < i then s3.take (i + 1) else s3
    | none => s3

/-- Typed failures of the extract-and-parse pipeline: the explicit
`No JSON content extracted` throw of `extractAndParseJSON`
(`part_006` 329-331) and the `JSON.parse` failure rethrown by
`generateCourseContent` (`part_006` 470-525). -/
inductive GenError where
  | emptyCandidate
  | parseFailed
deriving DecidableEq

/-- `extractAndParseJSON` (`part_006` 229-334): produce the candidate, throw
only when it is empty. -/
def extractAndParseJSON (content : List Char) : Except GenError (List Char) :=
  let cand := candidateOf content
  if cand.isEmpty then .error .emptyCandidate else .ok cand

/-! ## JSON grammar

An executable recognizer for RFC 8259 JSON text, used in two roles: as the
model of `JSON.parse` success/failure in `generateCourseContent`, and as
the formal reading of "well-formed JSON object" in the claims about the
brace scan.  Each `...Tail` function consumes one construct from the head
of the input and returns the unconsumed suffix. -/

/-- JSON insignificant whitespace (RFC 8259): space, tab, LF, CR. -/
def jsonWs (c : Char) : Bool := c = ' ' || c = '\t' || c = '\n' || c = '\r'

def skipWs (cs : List Char) : List Char := cs.dropWhile jsonWs

def isDigit (c : Char) : Bool := '0' ≤ c && c ≤ '9'

def isHexDigit (c : Char) : Bool :=
  isDigit c || ('a' ≤ c && c ≤ 'f') || ('A' ≤ c && c ≤ 'F')

/-- The single-character escapes of a JSON string. -/
def isEscChar (c : Char) : Bool :=
  c = '"' || c = '\\' || c = '/' || c = 'b' || c = 'f' || c = 'n' || c = 'r' || c = 't'

/-- Consume the rest of a JSON string literal, the opening quote already
consumed, through the closing quote.  The fuel argument dominates the
character-by-character recursion. -/
def strTail : Nat → List Char → Option (List Char)
  | 0, _ => none
  | _ + 1, [] => none
  | fuel + 1, c :: cs =>
    if c = '"' then some cs
    else if c = '\\' then
      match cs with
      | [] => none
      | e :: cs2 =>
        if e = 'u' then
          match cs2 with
          | a :: b :: c2 :: d :: cs3 =>
            if isHexDigit a && isHexDigit b && isHexDigit c2 && isHexDigit d then
              strTail fuel cs3
            else none
          | _ => none
        else if isEscChar e then strTail fuel cs2 else none
    else if c.toNat < 32 then none else strTail fuel cs

/-- Consume one-or-more digits. -/
def digits1 (cs : List Char) : Option (List Char) :=
  match cs with
  | c :: _ => if isDigit c then some (cs.dropWhile isDigit) else none
  | [] => none

/-- Consume the part of an exponent after `e`/`E`: optional sign, digits. -/
def expNum (cs : List Char) : Option (List Char) :=
  match cs with
  | '+' :: r => digits1 r
  | '-' :: r => digits1 r
  | _ => digits1 cs

/-- Consume an optional JSON exponent part. -/
def expTail (cs : List Char) : Option (List Char) :=
  match cs with
  | 'e' :: r => expNum r
  | 'E' :: r => expNum r
  | _ => some cs

/-- Consume an optional JSON fraction part, then the exponent. -/
def fracTail (cs : List Char) : Option (List Char) :=
  match cs with
  | '.' :: r =>
    match digits1 r with
    | some r2 => expTail r2
    | none => none
  | _ => expTail cs

/-- Consume the integer part of a JSON number (`0` or a nonzero digit
followed by more digits), then the fraction and exponent. -/
def intPart (cs : List Char) : Option (List Char) :=
  match cs with
  | c :: r =>
    if c = '0' then fracTail r
    else if '1' ≤ c && c ≤ '9' then fracTail (r.dropWhile isDigit)
    else none
  | [] => none

/-- Consume a JSON number. -/
def numTail (cs : List Char) : Option (List Char) :=
  match cs with
  | '-' :: r => intPart r
  | _ => intPart cs

mutual

/-- Consume one JSON value starting at its first character. -/
def vConsume : Nat → List Char → Option (List Char)
  | 0, _ => none
  | fuel + 1, cs =>
    match cs with
    | '"' :: r => strTail fuel r
    | '{' :: r => objTail fuel r
    | '[' :: r => arrTail fuel r
    | 't' :: 'r' :: 'u' :: 'e' :: r => some r
    | 'f' :: 'a' :: 'l' :: 's' :: 'e' :: r => some r
    | 'n' :: 'u' :: 'l' :: 'l' :: r => some r
    | _ => numTail cs

/-- Consume the rest of a JSON object, the `{` already consumed, through
the closing `}`. -/
def objTail : Nat → List Char → Option (List Char)
  | 0, _ => none
  | fuel + 1, cs =>
    match skipWs cs with
    | '}' :: r => some r
    | _ => memTail fuel (skipWs cs)

/-- Consume one-or-more object members starting at the first key, through
the closing `}`. -/
def memTail : Nat → List Char → Option (List Char)
  | 0, _ => none
  | fuel + 1, cs =>
    match cs with
    | '"' :: r =>
      match strTail fuel r with
      | none => none
      | some r1 =>
        match skipWs r1 with
        | ':' :: r2 =>
          match vConsume fuel (skipWs r2) with
          | none => none
          | some r3 =>
            match skipWs r3 with
            | ',' :: r4 => memTail fuel (skipWs r4)
            | '}' :: r4 => some r4
            | _ => none
        | _ => none
    | _ => none

/-- Consume the rest of a JSON array, the `[` already consumed, through
the closing `]`. -/
def arrTail : Nat → List Char → Option (List Char)
  | 0, _ => none
  | fuel + 1, cs =>
    match skipWs cs with
    | ']' :: r => some r
    | _ => elemTail fuel (skipWs cs)

/-- Consume one-or-more array elements, through the closing `]`. -/
def elemTail : Nat → List Char → Option (List Char)
  | 0, _ => none
  | fuel + 1, cs =>
    match vConsume fuel cs with
    | none => none
    | some r =>
      match skipWs r with
      | ',' :: r2 => elemTail fuel (skipWs r2)
      | ']' :: r2 => some r2
      | _ => none

end

/-- Consume one complete JSON object text: a `{` followed by the rest of
an object.  `objConsume fuel (j ++ post) = some post` says exactly that
`j` is a well-formed JSON object text. -/
def objConsume (fuel : Nat) (cs : List Char) : Option (List Char) :=
  match cs with
  | '{' :: r => objTail fuel r
  | _ => none

/-- Success of `JSON.parse` on a whole text: optional whitespace, one JSON
value, optional whitespace, nothing else.  The fuel `3 * length + 3`
dominates the recursion (every cycle through the mutual consumers uses at
most three fuel units and consumes at least one character). -/
def parseElementOk (cs : List Char) : Bool :=
  match vConsume (3 * cs.length + 3) (skipWs cs) with
  | some r => (skipWs r).isEmpty
  | none => false

/-- The extract-then-parse stage of `generateCourseContent`
(`part_006` 463-525): extraction, then `JSON.parse` on the candidate,
whose failure is rethrown as the parse-failure error. -/
def extractThenParse (content : List Char) : Except GenError (List Char) :=
  match extractAndParseJSON content with
  | .error e => .error e
  | .ok cand => if parseElementOk cand then .ok cand else .error .parseFailed

/-! ## Scan-neutral segments

The inductive structure behind the correctness of the brace scan.  A
`StrBody` is the interior of a double-quoted string as the scanner sees
it: any run of characters in which `"` never occurs unescaped and every
backslash consumes the following character.  A `ScanNeutral` segment is a
concatenation of non-structural characters, complete string literals and
complete brace-balanced objects — the segments over which the scanner's
depth, string and escape state return to where they started.  Every JSON
construct below the outermost object falls in this class
(`vConsume_shape` etc.). -/

inductive StrBody : List Char → Prop
  | nil : StrBody []
  | plain {c : Char} {s : List Char} : c ≠ '"' → c ≠ '\\' → StrBody s →
      StrBody (c :: s)
  | esc {c : Char} {s : List Char} : StrBody s → StrBody ('\\' :: c :: s)

/-- Characters with no role in the scanner's state. -/
def plainChar (c : Char) : Bool :=
  !(c = '{' || c = '}' || c = '"' || c = '\\')

inductive ScanNeutral : List Char → Prop
  | nil : ScanNeutral []
  | plain {c : Char} {s : List Char} : plainChar c = true → ScanNeutral s →
      ScanNeutral (c :: s)
  | str {b s : List Char} : StrBody b → ScanNeutral s →
      ScanNeutral ('"' :: b ++ '"' :: s)
  | obj {inner s : List Char} : ScanNeutral inner → ScanNeutral s →
      ScanNeutral ('{' :: inner ++ '}' :: s)

/-- `cs` equals `r` with a scan-neutral segment in front: the relation
"the consumer ate a scan-neutral prefix". -/
def NeutralPre (cs r : List Char) : Prop :=
  ∃ t, cs = t ++ r ∧ ScanNeutral t

/-- `cs` equals a scan-neutral segment, a closing brace, then `r`: the
shape of the input of `objTail`/`memTail` when they succeed with rest
`r`. -/
def ObjPre (cs r : List Char) : Prop :=
  ∃ inner, cs = inner ++ '}' :: r ∧ ScanNeutral inner

/-! ## Static exporter

`generateStandaloneApp` (`part_006` lines 1069-1638).  The HTML template is
reproduced verbatim below as static chunks (named `tpl...`, `lessonOpen...`,
etc.), cut at the template's interpolation points; the functions after them
mirror the string-building of the source.  Braces, apostrophes, backticks
and hash signs inside the literals are written with hex escapes. -/

def tplT0 : List Char := S "<!DOCTYPE html>\n<html lang=\"en\">\n<head>\n    <meta charset=\"UTF-8\">\n    <meta name=" ++
  S "\"viewport\" content=\"width=device-width, initial-scale=1.0\">\n    <title>"

def tplT1a : List Char := S "</title>\n    "

def cdnScriptTag : List Char := S "<script src=\"https://cdn.jsdelivr.net/npm/marked@11.1.1/marked.min.js\"></script>"

def tplT1b : List Char := S "\n    <style>\n        /* Reset and base styles */\n        * \x7b\n            margin: 0;" ++
  S "\n            padding: 0;\n            box-sizing: border-box;\n        \x7d\n\n        bo" ++
  S "dy \x7b\n            font-family: -apple-system, BlinkMacSystemFont, \x27Segoe UI\x27, \x27" ++
  S "Roboto\x27, \x27Oxygen\x27,\n                \x27Ubuntu\x27, \x27Cantarell\x27, \x27Fira S" ++
  S "ans\x27, \x27Droid Sans\x27, \x27Helvetica Neue\x27,\n                sans-serif;\n       " ++
  S "     -webkit-font-smoothing: antialiased;\n            -moz-osx-font-smoothing: grayscale;" ++
  S "\n            background: \x23f5f5f5;\n            color: \x23333;\n        \x7d\n\n      " ++
  S "  code \x7b\n            font-family: \x27Courier New\x27, monospace;\n        \x7d\n\n   " ++
  S "     /* Course viewer styles */\n        .course-viewer \x7b\n            max-width: 1000p" ++
  S "x;\n            margin: 0 auto;\n            padding: 40px 20px;\n        \x7d\n\n        " ++
  S ".course-header \x7b\n            background: white;\n            padding: 32px;\n         " ++
  S "   border-radius: 8px;\n            box-shadow: 0 2px 8px rgba(0, 0, 0, 0.1);\n           " ++
  S " margin-bottom: 24px;\n        \x7d\n\n        .course-header h1 \x7b\n            font-si" ++
  S "ze: 32px;\n            margin-bottom: 12px;\n            color: \x23333;\n        \x7d\n\n" ++
  S "        .course-description \x7b\n            color: \x23666;\n            font-size: 16px" ++
  S ";\n            line-height: 1.6;\n        \x7d\n\n        .lessons \x7b\n            displ" ++
  S "ay: flex;\n            flex-direction: column;\n            gap: 24px;\n        \x7d\n\n  " ++
  S "      .lesson-card \x7b\n            background: white;\n            padding: 32px;\n     " ++
  S "       border-radius: 8px;\n            box-shadow: 0 2px 8px rgba(0, 0, 0, 0.1);\n       " ++
  S " \x7d\n\n        .lesson-card h2 \x7b\n            font-size: 24px;\n            margin-bo" ++
  S "ttom: 16px;\n            color: \x23333;\n            border-bottom: 2px solid \x232196F3;" ++
  S "\n            padding-bottom: 8px;\n        \x7d\n\n        .lesson-content \x7b\n        " ++
  S "    line-height: 1.8;\n            color: \x23444;\n            margin-bottom: 32px;\n    " ++
  S "    \x7d\n\n        .lesson-content h1,\n        .lesson-content h2,\n        .lesson-cont" ++
  S "ent h3 \x7b\n            margin-top: 24px;\n            margin-bottom: 12px;\n            " ++
  S "color: \x23333;\n        \x7d\n\n        .lesson-content code \x7b\n            background" ++
  S ": \x23f5f5f5;\n            padding: 2px 6px;\n            border-radius: 3px;\n           " ++
  S " font-family: \x27Courier New\x27, monospace;\n            font-size: 0.9em;\n        \x7d" ++
  S "\n\n        .lesson-content pre \x7b\n            background: \x23f5f5f5;\n            pad" ++
  S "ding: 16px;\n            border-radius: 6px;\n            overflow-x: auto;\n            m" ++
  S "argin: 16px 0;\n        \x7d\n\n        .lesson-content pre code \x7b\n            backgro" ++
  S "und: none;\n            padding: 0;\n        \x7d\n\n        .questions-section,\n        " ++
  S ".coding-section \x7b\n            margin-top: 32px;\n            padding-top: 32px;\n     " ++
  S "       border-top: 1px solid \x23eee;\n        \x7d\n\n        .questions-section h3,\n   " ++
  S "     .coding-section h3 \x7b\n            font-size: 20px;\n            margin-bottom: 20p" ++
  S "x;\n            color: \x23333;\n        \x7d\n\n        .question \x7b\n            margi" ++
  S "n-bottom: 32px;\n            padding: 20px;\n            background: \x23f9f9f9;\n        " ++
  S "    border-radius: 8px;\n        \x7d\n\n        .question h4 \x7b\n            font-size:" ++
  S " 16px;\n            margin-bottom: 16px;\n            color: \x23333;\n        \x7d\n\n   " ++
  S "     .options \x7b\n            display: flex;\n            flex-direction: column;\n     " ++
  S "       gap: 12px;\n            margin-bottom: 16px;\n        \x7d\n\n        .option \x7b\n" ++
  S "            padding: 14px 16px;\n            background: white;\n            border: 2px s" ++
  S "olid \x23e0e0e0;\n            border-radius: 6px;\n            cursor: pointer;\n         " ++
  S "   transition: all 0.2s;\n            font-size: 14px;\n        \x7d\n\n        .option:ho" ++
  S "ver \x7b\n            border-color: \x232196F3;\n            background: \x23f5f5f5;\n    " ++
  S "    \x7d\n\n        .option.selected \x7b\n            border-color: \x232196F3;\n        " ++
  S "    background: \x23e3f2fd;\n        \x7d\n\n        .option.correct \x7b\n            bor" ++
  S "der-color: \x234CAF50;\n            background: \x23e8f5e9;\n        \x7d\n\n        .opti" ++
  S "on.incorrect \x7b\n            border-color: \x23f44336;\n            background: \x23ffeb" ++
  S "ee;\n        \x7d\n\n        .check-btn \x7b\n            padding: 10px 20px;\n           " ++
  S " background: \x232196F3;\n            color: white;\n            border: none;\n          " ++
  S "  border-radius: 6px;\n            cursor: pointer;\n            font-size: 14px;\n       " ++
  S "     margin-top: 8px;\n        \x7d\n\n        .check-btn:hover \x7b\n            backgrou" ++
  S "nd: \x231976D2;\n        \x7d\n\n        .explanation \x7b\n            margin-top: 16px;\n" ++
  S "            padding: 16px;\n            background: \x23e3f2fd;\n            border-radius" ++
  S ": 6px;\n            border-left: 4px solid \x232196F3;\n        \x7d\n\n        .explanati" ++
  S "on strong \x7b\n            color: \x231976D2;\n        \x7d\n\n        .coding-exercise \x7b" ++
  S "\n            margin-bottom: 32px;\n            padding: 20px;\n            background: \x23" ++
  S "f9f9f9;\n            border-radius: 8px;\n        \x7d\n\n        .coding-exercise h4 \x7b" ++
  S "\n            font-size: 18px;\n            margin-bottom: 12px;\n            color: \x233" ++
  S "33;\n        \x7d\n\n        .coding-exercise p \x7b\n            color: \x23666;\n       " ++
  S "     margin-bottom: 16px;\n            line-height: 1.6;\n        \x7d\n\n        .test-ca" ++
  S "ses \x7b\n            margin-bottom: 16px;\n            padding: 12px;\n            backgr" ++
  S "ound: white;\n            border-radius: 6px;\n        \x7d\n\n        .test-cases strong " ++
  S "\x7b\n            display: block;\n            margin-bottom: 8px;\n            color: \x23" ++
  S "333;\n        \x7d\n\n        .test-cases ul \x7b\n            list-style: none;\n        " ++
  S "    margin-left: 0;\n        \x7d\n\n        .test-cases li \x7b\n            padding: 6px" ++
  S " 0;\n            color: \x23666;\n            font-size: 14px;\n        \x7d\n\n        .t" ++
  S "est-cases code \x7b\n            background: \x23f5f5f5;\n            padding: 2px 6px;\n " ++
  S "           border-radius: 3px;\n            font-family: \x27Courier New\x27, monospace;\n" ++
  S "        \x7d\n\n        .editor-container \x7b\n            margin: 16px 0;\n            b" ++
  S "order: 1px solid \x23ddd;\n            border-radius: 6px;\n            overflow: hidden;\n" ++
  S "        \x7d\n\n        .code-textarea \x7b\n            width: 100%;\n            height:" ++
  S " 400px;\n            font-family: \x27Courier New\x27, monospace;\n            font-size: " ++
  S "14px;\n            padding: 12px;\n            border: none;\n            background: \x23" ++
  S "1e1e1e;\n            color: \x23d4d4d4;\n            resize: none;\n            outline: n" ++
  S "one;\n            tab-size: 2;\n        \x7d\n\n        .solution-btn \x7b\n            pa" ++
  S "dding: 10px 20px;\n            background: \x234CAF50;\n            color: white;\n       " ++
  S "     border: none;\n            border-radius: 6px;\n            cursor: pointer;\n       " ++
  S "     font-size: 14px;\n            margin-top: 12px;\n        \x7d\n\n        .solution-bt" ++
  S "n:hover \x7b\n            background: \x2345a049;\n        \x7d\n\n        .solution \x7b\n" ++
  S "            margin-top: 16px;\n            padding: 16px;\n            background: white;\n" ++
  S "            border-radius: 6px;\n            border-left: 4px solid \x234CAF50;\n        \x7d" ++
  S "\n\n        .solution strong \x7b\n            display: block;\n            margin-bottom:" ++
  S " 8px;\n            color: \x23333;\n        \x7d\n\n        .solution pre \x7b\n          " ++
  S "  background: \x23f5f5f5;\n            padding: 12px;\n            border-radius: 4px;\n  " ++
  S "          overflow-x: auto;\n            margin-top: 8px;\n        \x7d\n\n        .soluti" ++
  S "on code \x7b\n            font-family: \x27Courier New\x27, monospace;\n            font-s" ++
  S "ize: 14px;\n        \x7d\n    </style>\n</head>\n<body>\n    <div class=\"course-viewer\">" ++
  S "\n        <div class=\"course-header\">\n            <h1>"

def tplT2 : List Char := S "</h1>\n            <p class=\"course-description\">"

def tplT3 : List Char := S "</p>\n        </div>\n\n        <div class=\"lessons\">\n            "

def tplT4 : List Char := S "\n        </div>\n    </div>\n\n    <script>\n        // Course data\n        const course" ++
  S "Data = "

def tplT5a : List Char := S ";\n\n        // State management\n        const state = \x7b\n            selectedAnswers:" ++
  S " \x7b\x7d,\n            showExplanations: \x7b\x7d,\n            codeSolutions: \x7b\x7d\n" ++
  S "        \x7d;\n\n        // Escape HTML helper\n        function escapeHtml(text) \x7b\n  " ++
  S "          if (text == null) return \x27\x27;\n            const div = document.createEleme" ++
  S "nt(\x27div\x27);\n            div.textContent = text;\n            return div.innerHTML;\n" ++
  S "        \x7d\n\n        // Sanitize ID helper (same logic as server-side)\n        functio" ++
  S "n sanitizeId(id) \x7b\n            return String(id || \x27\x27).replace(/[^a-zA-Z0-9-_]/g" ++
  S ", \x27-\x27);\n        \x7d\n\n        // Initialize markdown content\n        function in" ++
  S "itializeMarkdown() \x7b\n            courseData.lessons.forEach((lesson, lessonIdx) => \x7b" ++
  S "\n                const lessonId = sanitizeId(lesson.id || \x60lesson-$\x7blessonIdx\x7d\x60" ++
  S ");\n                const contentElement = document.getElementById(\x27content-\x27 + less" ++
  S "onId);\n                if (contentElement && lesson.content) \x7b\n                    if" ++
  S " (typeof marked !== \x27undefined\x27 && marked.parse) \x7b\n                        conte" ++
  S "ntElement.innerHTML = marked.parse(lesson.content);\n                    \x7d else \x7b\n " ++
  S "                       // Fallback if marked.js fails to load\n                        con" ++
  S "tentElement.textContent = lesson.content;\n                    \x7d\n                \x7d\n" ++
  S "            \x7d);\n        \x7d\n\n        // Handle answer selection\n        "

def fnHandleAnswerSelect : List Char := S "function handleAnswerSelect(questionId, answerIndex) \x7b\n            state.selectedAnswe" ++
  S "rs[questionId] = answerIndex;\n            \n            // Update UI\n            const q" ++
  S "uestionElement = document.querySelector(\x27[data-question-id=\"\x27 + questionId + \x27\"" ++
  S "]\x27);\n            if (!questionElement) return;\n            \n            // Remove se" ++
  S "lected class from all options\n            questionElement.querySelectorAll(\x27.option\x27" ++
  S ").forEach(opt => \x7b\n                opt.classList.remove(\x27selected\x27);\n          " ++
  S "  \x7d);\n            \n            // Add selected class to chosen option\n            co" ++
  S "nst selectedOption = questionElement.querySelector(\x27[data-option-index=\"\x27 + answerI" ++
  S "ndex + \x27\"]\x27);\n            if (selectedOption) \x7b\n                selectedOption" ++
  S ".classList.add(\x27selected\x27);\n            \x7d\n            \n            // Show che" ++
  S "ck button\n            const checkBtn = document.getElementById(\x27check-btn-\x27 + quest" ++
  S "ionId);\n            if (checkBtn) \x7b\n                checkBtn.style.display = \x27bloc" ++
  S "k\x27;\n            \x7d\n        \x7d\n\n        // Check answer\n        "

def fnCheckAnswer : List Char := S "function checkAnswer(questionId, correctAnswer) \x7b\n            state.showExplanations[q" ++
  S "uestionId] = true;\n            \n            const questionElement = document.querySelect" ++
  S "or(\x27[data-question-id=\"\x27 + questionId + \x27\"]\x27);\n            if (!questionEle" ++
  S "ment) return;\n            \n            // Mark correct/incorrect answers\n            qu" ++
  S "estionElement.querySelectorAll(\x27.option\x27).forEach((opt, idx) => \x7b\n              " ++
  S "  opt.classList.remove(\x27correct\x27, \x27incorrect\x27);\n                if (idx === c" ++
  S "orrectAnswer) \x7b\n                    opt.classList.add(\x27correct\x27);\n             " ++
  S "   \x7d else if (state.selectedAnswers[questionId] === idx) \x7b\n                    opt." ++
  S "classList.add(\x27incorrect\x27);\n                \x7d\n            \x7d);\n            \n" ++
  S "            // Show explanation\n            const explanation = document.getElementById(\x27" ++
  S "explanation-\x27 + questionId);\n            if (explanation) \x7b\n                explan" ++
  S "ation.style.display = \x27block\x27;\n            \x7d\n        \x7d\n\n        // Toggle " ++
  S "code solution\n        "

def fnToggleCodeSolution : List Char := S "function toggleCodeSolution(exerciseId) \x7b\n            state.codeSolutions[exerciseId] " ++
  S "= !state.codeSolutions[exerciseId];\n            \n            const solution = document.g" ++
  S "etElementById(\x27solution-\x27 + exerciseId);\n            const button = event.target;\n" ++
  S "            \n            if (solution) \x7b\n                solution.style.display = sta" ++
  S "te.codeSolutions[exerciseId] ? \x27block\x27 : \x27none\x27;\n            \x7d\n          " ++
  S "  \n            if (button) \x7b\n                button.textContent = state.codeSolutions" ++
  S "[exerciseId] ? \x27Hide Solution\x27 : \x27Show Solution\x27;\n            \x7d\n        \x7d" ++
  S "\n\n        "

def tplT5b : List Char := S "// Initialize when DOM is ready\n        if (document.readyState === \x27loading\x27) \x7b" ++
  S "\n            document.addEventListener(\x27DOMContentLoaded\x27, initializeMarkdown);\n  " ++
  S "      \x7d else \x7b\n            initializeMarkdown();\n        \x7d\n    </script>\n</bo" ++
  S "dy>\n</html>"

/-- The tail of the exported page after the course-data literal: the
inline interaction script (state, helpers, and the three handler
functions) and the closing markup. -/
def tplT5 : List Char :=
  tplT5a ++ fnHandleAnswerSelect ++ fnCheckAnswer ++ fnToggleCodeSolution ++ tplT5b

def lessonOpen0 : List Char := S "\n        <div class=\"lesson-card\" data-lesson-id=\""

def lessonOpen1 : List Char := S "\">\n          <h2>"

def lessonOpen2 : List Char := S "</h2>\n          <div class=\"lesson-content\" id=\"content-"

def lessonOpen3 : List Char := S "\"></div>"

def qSecOpen0 : List Char := S "\n          <div class=\"questions-section\">\n            <h3>Questions</h3>"

def qOpen0 : List Char := S "\n            <div class=\"question\" data-question-id=\""

def qOpen1 : List Char := S "\">\n              <h4>"

def qOpen2 : List Char := S "</h4>\n              <div class=\"options\">"

def optPiece0 : List Char := S "\n                <div class=\"option\" \n                     data-question-id=\""

def optPiece1 : List Char := S "\" \n                     data-option-index=\""

def optPiece2 : List Char := S "\"\n                     onclick=\"handleAnswerSelect(\x27"

def optPiece3 : List Char := S "\x27, "

def optPiece4 : List Char := S ")\">\n                  "

def optPiece5 : List Char := S "\n                </div>"

def checkPiece0 : List Char := S "\n              </div>\n              <button class=\"check-btn\" \n                      " ++
  S "id=\"check-btn-"

def checkPiece1 : List Char := S "\" \n                      onclick=\"checkAnswer(\x27"

def checkPiece2 : List Char := S "\x27, "

def checkPiece3 : List Char := S ")\"\n                      style=\"display: none;\">\n                Check Answer\n      " ++
  S "        </button>\n              <div class=\"explanation\" id=\"explanation-"

def checkPiece4 : List Char := S "\" style=\"display: none;\">\n                <strong>Explanation:</strong> "

def checkPiece5 : List Char := S "\n              </div>\n            </div>"

def qSecClose0 : List Char := S "\n          </div>"

def codSecOpen0 : List Char := S "\n          <div class=\"coding-section\">\n            <h3>Coding Exercises</h3>"

def exOpen0 : List Char := S "\n            <div class=\"coding-exercise\" data-exercise-id=\""

def exOpen1 : List Char := S "\">\n              <h4>"

def exOpen2 : List Char := S "</h4>\n              <p>"

def exOpen3 : List Char := S "</p>"

def tcOpen0 : List Char := S "\n              <div class=\"test-cases\">\n                <strong>Test Cases:</strong>\n" ++
  S "                <ul>"

def tcItem0 : List Char := S "\n                  <li>\n                    Input: <code>"

def tcItem1 : List Char := S "</code> \u00e2\u2020\u2019 \n                    Expected: <code>"

def tcItem2 : List Char := S "</code>\n                  </li>"

def tcClose0 : List Char := S "\n                </ul>\n              </div>"

def edPiece0 : List Char := S "\n              <div class=\"editor-container\">\n                <textarea id=\"code-edit" ++
  S "or-"

def edPiece1 : List Char := S "\" \n                          class=\"code-textarea\"\n                          spellche" ++
  S "ck=\"false\">"

def edPiece2 : List Char := S "</textarea>\n              </div>\n              <button class=\"solution-btn\" \n        " ++
  S "              onclick=\"toggleCodeSolution(\x27"

def edPiece3 : List Char := S "\x27)\">\n                Show Solution\n              </button>\n              <div class" ++
  S "=\"solution\" id=\"solution-"

def edPiece4 : List Char := S "\" style=\"display: none;\">\n                <strong>Solution:</strong>\n                " ++
  S "<pre><code>"

def edPiece5 : List Char := S "</code></pre>\n              </div>\n            </div>"

def codSecClose0 : List Char := S "\n          </div>"

def lessonClose0 : List Char := S "\n        </div>"

/-- `escapeHtml` (`part_006` 1071-1079): the five sequential global
replaces, which amount to a per-character substitution because `&` is
replaced first. -/
def escHtmlChar (c : Char) : List Char :=
  if c = '&' then S "&amp;"
  else if c = '<' then S "&lt;"
  else if c = '>' then S "&gt;"
  else if c = '"' then S "&quot;"
  else if c.toNat = 39 then S "&\x23039;"
  else [c]

def escapeHtmlC (cs : List Char) : List Char := cs.flatMap escHtmlChar

def escapeHtml (s : String) : List Char := escapeHtmlC s.data

/-- The JS truthiness fallback `v || d` for string-valued fields: both a
missing field and an empty string fall back (empty strings are falsy). -/
def jsOrStr (v : Option String) (d : String) : String :=
  match v with
  | none => d
  | some s => if s = "" then d else s

def sanitizeIdChar (c : Char) : Bool :=
  ('a' <= c && c <= 'z') || ('A' <= c && c <= 'Z') || ('0' <= c && c <= '9') ||
    c = '-' || c = '_'

/-- The id sanitizer `.replace(/[^a-zA-Z0-9-_]/g, '-')`
(`part_006` 1087, 1101, 1143). -/
def sanitizeId (s : String) : List Char :=
  s.data.map fun c => if sanitizeIdChar c then c else '-'

def natChars (n : Nat) : List Char := (Nat.repr n).data

def intChars (i : Int) : List Char := (Int.repr i).data

def joinL (xs : List (List Char)) : List Char := xs.foldr (fun a b => a ++ b) []

/-! ### `JSON.stringify(course, null, 2)`

The inline data literal of the exported page (`part_006` 1525).  Fields
are emitted in the declared field order of the model (the insertion order
of the parsed document) and absent (`none`) fields are omitted, as
`JSON.stringify` omits `undefined` properties. -/

def hexDigitChar (n : Nat) : Char :=
  if n < 10 then Char.ofNat (48 + n) else Char.ofNat (87 + n)

/-- The string escaping of `JSON.stringify`: quote, backslash and control
characters only — `<` and `>` pass through untouched. -/
def jsonEscChar (c : Char) : List Char :=
  if c = '"' then ['\\', '"']
  else if c = '\\' then ['\\', '\\']
  else if c = '\n' then ['\\', 'n']
  else if c = '\r' then ['\\', 'r']
  else if c = '\t' then ['\\', 't']
  else if c.toNat = 8 then ['\\', 'b']
  else if c.toNat = 12 then ['\\', 'f']
  else if c.toNat < 32 then
    ['\\', 'u', '0', '0', hexDigitChar (c.toNat / 16), hexDigitChar (c.toNat % 16)]
  else [c]

def jstr (s : String) : List Char := '"' :: s.data.flatMap jsonEscChar ++ ['"']

def indentJ (d : Nat) : List Char := List.replicate (2 * d) ' '

def joinComma (xs : List (List Char)) : List Char := List.intercalate (S ",\n") xs

/-- Pretty-printed object with gap 2: members on their own lines at one
deeper indent, closing brace at depth `d`; `\x7b\x7d` when empty. -/
def jobj (d : Nat) (fields : List (Option (String × List Char))) : List Char :=
  let ps := fields.filterMap id
  match ps with
  | [] => ['\x7b', '\x7d']
  | _ =>
    '\x7b' :: '\n' ::
      (joinComma (ps.map fun p => indentJ (d + 1) ++ jstr p.1 ++ S ": " ++ p.2)) ++
        '\n' :: (indentJ d ++ ['\x7d'])

/-- Pretty-printed array with gap 2. -/
def jarr (d : Nat) (vs : List (List Char)) : List Char :=
  match vs with
  | [] => ['[', ']']
  | _ =>
    '[' :: '\n' :: (joinComma (vs.map fun v => indentJ (d + 1) ++ v)) ++
      '\n' :: (indentJ d ++ [']'])

def jTestCase (d : Nat) (t : TestCase) : List Char :=
  jobj d
    [t.input.map fun s => ("input", jstr s),
     t.expectedOutput.map fun s => ("expectedOutput", jstr s)]

def jExercise (d : Nat) (e : Exercise) : List Char :=
  jobj d
    [e.id.map fun s => ("id", jstr s),
     e.title.map fun s => ("title", jstr s),
     e.description.map fun s => ("description", jstr s),
     e.starterCode.map fun s => ("starterCode", jstr s),
     e.language.map fun s => ("language", jstr s),
     e.testCases.map fun ts => ("testCases", jarr (d + 1) (ts.map (jTestCase (d + 2)))),
     e.solution.map fun s => ("solution", jstr s)]

def jQuestion (d : Nat) (q : Question) : List Char :=
  jobj d
    [q.id.map fun s => ("id", jstr s),
     q.qtype.map fun s => ("type", jstr s),
     q.question.map fun s => ("question", jstr s),
     q.options.map fun os => ("options", jarr (d + 1) (os.map jstr)),
     q.correctAnswer.map fun i => ("correctAnswer", intChars i),
     q.explanation.map fun s => ("explanation", jstr s)]

def jLesson (d : Nat) (l : Lesson) : List Char :=
  jobj d
    [l.id.map fun s => ("id", jstr s),
     l.title.map fun s => ("title", jstr s),
     l.content.map fun s => ("content", jstr s),
     l.questions.map fun qs => ("questions", jarr (d + 1) (qs.map (jQuestion (d + 2)))),
     l.codingExercises.map fun es =>
       ("codingExercises", jarr (d + 1) (es.map (jExercise (d + 2))))]

def jCourse (c : Course) : List Char :=
  jobj 0
    [c.title.map fun s => ("title", jstr s),
     c.description.map fun s => ("description", jstr s),
     c.lessons.map fun ls => ("lessons", jarr 1 (ls.map (jLesson 2))),
     c.id.map fun s => ("id", jstr s),
     c.createdAt.map fun s => ("createdAt", jstr s)]

/-! ### The lesson markup (`generateLessonsHTML`, `part_006` 1082-1192) -/

def optionHTML (safeQuestionId : List Char) (idx : Nat) (opt : String) : List Char :=
  optPiece0 ++ safeQuestionId ++ optPiece1 ++ natChars idx ++ optPiece2 ++
    safeQuestionId ++ optPiece3 ++ natChars idx ++ optPiece4 ++ escapeHtml opt ++
    optPiece5

def questionHTML (lessonIdx qIdx : Nat) (q : Question) : List Char :=
  let questionId :=
    sanitizeId (jsOrStr q.id ("q-" ++ Nat.repr lessonIdx ++ "-" ++ Nat.repr qIdx))
  let safeQuestionId := escapeHtmlC questionId
  qOpen0 ++ safeQuestionId ++ qOpen1 ++ escapeHtml (jsOrStr q.question "") ++ qOpen2 ++
    joinL ((q.options.getD []).enum.map fun p => optionHTML safeQuestionId p.1 p.2) ++
    checkPiece0 ++ safeQuestionId ++ checkPiece1 ++ safeQuestionId ++ checkPiece2 ++
    intChars (q.correctAnswer.getD 0) ++ checkPiece3 ++ safeQuestionId ++
    checkPiece4 ++ escapeHtml (jsOrStr q.explanation "") ++ checkPiece5

def questionsSection (lessonIdx : Nat) (l : Lesson) : List Char :=
  let qs := l.questions.getD []
  if qs.length = 0 then []
  else
    qSecOpen0 ++ joinL (qs.enum.map fun p => questionHTML lessonIdx p.1 p.2) ++
      qSecClose0

def tcItemHTML (t : TestCase) : List Char :=
  tcItem0 ++ escapeHtml (jsOrStr t.input "") ++ tcItem1 ++
    escapeHtml (jsOrStr t.expectedOutput "") ++ tcItem2

def testCasesHTML (e : Exercise) : List Char :=
  let ts := e.testCases.getD []
  if ts.length = 0 then []
  else tcOpen0 ++ joinL (ts.map tcItemHTML) ++ tcClose0

def exerciseHTML (lessonIdx exIdx : Nat) (e : Exercise) : List Char :=
  let exerciseId :=
    sanitizeId (jsOrStr e.id ("ex-" ++ Nat.repr lessonIdx ++ "-" ++ Nat.repr exIdx))
  let safeExerciseId := escapeHtmlC exerciseId
  exOpen0 ++ safeExerciseId ++ exOpen1 ++ escapeHtml (jsOrStr e.title "") ++ exOpen2 ++
    escapeHtml (jsOrStr e.description "") ++ exOpen3 ++ testCasesHTML e ++ edPiece0 ++
    safeExerciseId ++ edPiece1 ++ escapeHtml (jsOrStr e.starterCode "") ++ edPiece2 ++
    safeExerciseId ++ edPiece3 ++ safeExerciseId ++ edPiece4 ++
    escapeHtml (jsOrStr e.solution "") ++ edPiece5

def codingSection (lessonIdx : Nat) (l : Lesson) : List Char :=
  let es := l.codingExercises.getD []
  if es.length = 0 then []
  else
    codSecOpen0 ++ joinL (es.enum.map fun p => exerciseHTML lessonIdx p.1 p.2) ++
      codSecClose0

def lessonHTML (lessonIdx : Nat) (l : Lesson) : List Char :=
  let lessonId := sanitizeId (jsOrStr l.id ("lesson-" ++ Nat.repr lessonIdx))
  let safeLessonId := escapeHtmlC lessonId
  lessonOpen0 ++ safeLessonId ++ lessonOpen1 ++
    escapeHtml (jsOrStr l.title "Untitled Lesson") ++ lessonOpen2 ++ safeLessonId ++
    lessonOpen3 ++ questionsSection lessonIdx l ++ codingSection lessonIdx l ++
    lessonClose0

def generateLessonsHTML (lessons : List Lesson) : List Char :=
  joinL (lessons.enum.map fun p => lessonHTML p.1 p.2)

/-- The ambient world a render call could observe: the clock and a source
of randomness.  `generateStandaloneApp` receives it explicitly so that
independence from it is expressible; mirroring the source, which contains
no reference to `Date`, `Math.random` or any other ambient state inside
`generateStandaloneApp`, the body never reads it. -/
structure RenderEnv where
  now : String
  randomSeed : Nat

/-- `generateStandaloneApp` (`part_006` 1069-1638).  Note the two raw
interpolations of the source: `course.title` into `<title>` (line 1199,
unescaped) and `JSON.stringify(course, null, 2)` into the inline script
(line 1525, unescaped). -/
def generateStandaloneApp (_env : RenderEnv) (course : Course) : List Char :=
  tplT0 ++ S (jsOrStr course.title "Course") ++ tplT1a ++ cdnScriptTag ++ tplT1b ++
    escapeHtml (jsOrStr course.title "Course") ++ tplT2 ++
    escapeHtml (jsOrStr course.description "") ++ tplT3 ++
    generateLessonsHTML (course.lessons.getD []) ++ tplT4 ++ jCourse course ++ tplT5

/-! ## Export endpoint filesystem effects

`app.get('/api/export/:courseId')` (`part_006` 1007-1066).  The handler
creates `exports/<id>`, writes `exports/<id>/index.html`, writes
`exports/<id>.zip`, and streams the zip; the download callback unlinks the
zip on success and rejects on failure.  The filesystem is modelled as the
list of existing paths and the handler as the trace of path
creations/removals it performs. -/

inductive FsOp where
  | create (p : String)
  | remove (p : String)

def applyFsOp (fs : List String) : FsOp → List String
  | .create p => if p ∈ fs then fs else p :: fs
  | .remove p => fs.erase p

/-- Outcome of `res.download` for the zip (`part_006` 1048-1057). -/
inductive DownloadResult where
  | ok
  | failed

def exportDirPath (courseId : String) : String := "exports/" ++ courseId

def exportHtmlPath (courseId : String) : String :=
  "exports/" ++ courseId ++ "/index.html"

def exportZipPath (courseId : String) : String := "exports/" ++ courseId ++ ".zip"

/-- The path effects of one run of `app.get('/api/export/:courseId')`:
mkdir, write `index.html`, write the zip; then `fs.unlink(zipPath)` in the
success branch of the download callback and nothing in the error branch
(`part_006` 1048-1057).  No path under `exports/<id>` is ever removed. -/
def exportOps (courseId : String) (dl : DownloadResult) : List FsOp :=
  [.create (exportDirPath courseId),
   .create (exportHtmlPath courseId),
   .create (exportZipPath courseId)] ++
    match dl with
    | .ok => [.remove (exportZipPath courseId)]
    | .failed => []

/-- The filesystem after one export request. -/
def exportFinalFs (fs0 : List String) (courseId : String) (dl : DownloadResult) :
    List String :=
  (exportOps courseId dl).foldl applyFsOp fs0

/-! ## Concrete instances used by witnesses and counterexamples -/

/-- All `correctAnswer` fields of a stored row, lesson by lesson. -/
def storedCorrectAnswers (r : CourseRow) : List (Option Int) :=
  (r.course_data.lessons.getD []).flatMap fun l =>
    (l.questions.getD []).map Question.correctAnswer

/-- The parsed document of the normalization scenario: options `a`,`b` and
`correctAnswer` 5. -/
def c3Parsed : Course :=
  { title := some "T"
    description := none
    lessons := some
      [{ id := some "l1"
         title := none
         content := none
         questions := some
           [{ id := some "q1"
              qtype := none
              question := some "Q"
              options := some ["a", "b"]
              correctAnswer := some 5
              explanation := some "e" }]
         codingExercises := none }]
    id := none
    createdAt := none }

/-- A stored course older than the hard-coded listing cutoff. -/
def c10OldRow : DbRow :=
  { id := "course-old"
    title := some "Old course"
    description := some "stored before the cutoff"
    created_at := 0
    course_data :=
      { title := some "Old course"
        description := some "stored before the cutoff"
        lessons := some [{ id := some "l1", title := none, content := none,
                           questions := none, codingExercises := none }]
        id := some "course-old"
        createdAt := some "2024-01-01T00:00:00.000Z" } }

/-- A fixed ambient environment for render calls. -/
def env0 : RenderEnv := { now := "2025-01-01T00:00:00.000Z", randomSeed := 0 }

/-- The injection scenario: a course whose lesson content is a script
tag. -/
def c2Course : Course :=
  { title := some "T"
    description := some "D"
    lessons := some
      [{ id := some "l1"
         title := some "L"
         content := some "<script>alert(1)</script>"
         questions := none
         codingExercises := none }]
    id := some "course-1"
    createdAt := some "2025-01-01T00:00:00.000Z" }

/-- A minimal course for the self-containedness counterexample. -/
def c7Course : Course :=
  { title := some "T"
    description := some "D"
    lessons := some []
    id := some "course-1"
    createdAt := some "2025-01-01T00:00:00.000Z" }

/-! ## Theorems -/

/-- C9: for every question with at least one option and
`0 ≤ correctAnswer < options.length`, removing one option preserves
`0 ≤ correctAnswer < options.length` (with at least one option left):
when the removal would leave `correctAnswer` pointing past the end it is
clamped to the new `options.length - 1`, and in every case `correctAnswer`
ends up at a valid remaining index. -/
theorem removeQuestionOption_invariant (options : List String) (ca : Int)
    (i : Nat) (h0 : 0 ≤ ca) (h1 : ca < options.length)
    (h2 : 1 ≤ options.length) :
    0 ≤ (removeQuestionOption options ca i).2 ∧
      (removeQuestionOption options ca i).2 <
        ((removeQuestionOption options ca i).1.length : Int) ∧
      1 ≤ (removeQuestionOption options ca i).1.length := by
  unfold removeQuestionOption
  have hlen := List.length_eraseIdx options i
  split
  · split <;> refine ⟨?_, ?_, ?_⟩ <;> simp only <;> split at hlen <;> omega
  · exact ⟨h0, h1, h2⟩

/-- Witness for C9: a two-option question with `correctAnswer = 1` whose
second option is removed ends with `correctAnswer = 0` over one remaining
option. -/
theorem removeQuestionOption_invariant_witness :
    0 ≤ (removeQuestionOption ["a", "b"] 1 1).2 ∧
      (removeQuestionOption ["a", "b"] 1 1).2 <
        ((removeQuestionOption ["a", "b"] 1 1).1.length : Int) ∧
      1 ≤ (removeQuestionOption ["a", "b"] 1 1).1.length :=
  removeQuestionOption_invariant ["a", "b"] 1 1 (by decide) (by decide) (by decide)

/-- C3, counterexample: the creation pipeline stores the scenario document
(options `a`,`b`, `correctAnswer` 5) with `correctAnswer` still 5, not the
claimed clamped value 1 — no normalization step runs before storage. -/
theorem uploadStore_no_clamp_counterexample :
    storedCorrectAnswers (uploadStore c3Parsed "course-1" "2025-01-01T00:00:00.000Z") =
        [some 5] ∧
      storedCorrectAnswers (uploadStore c3Parsed "course-1" "2025-01-01T00:00:00.000Z") ≠
        [some 1] := by
  constructor <;> decide

/-- C3, amended: the storage step of the upload pipeline stores the parsed
lessons — including every out-of-range `correctAnswer` — unchanged; it only
assigns `id` and `createdAt` on the document. -/
theorem uploadStore_lessons_unchanged (c : Course) (courseId now : String) :
    (uploadStore c courseId now).course_data.lessons = c.lessons := rfl

/-- C4: the exporter is deterministic — its output depends only on the
`Course` value, not on the ambient environment (clock, randomness), which
the source never reads; two renders of the same value are byte-identical. -/
theorem generateStandaloneApp_deterministic (e1 e2 : RenderEnv) (c : Course) :
    generateStandaloneApp e1 c = generateStandaloneApp e2 c := rfl

/-- C10, counterexample: a stored course older than the hard-coded cutoff
date gets no summary entry at all, so the listing does not return one
entry per stored course. -/
theorem listCourses_cutoff_counterexample :
    listCourses [c10OldRow] = [] ∧ ([c10OldRow] : List DbRow).length = 1 := by
  constructor
  · unfold listCourses
    have hf : ([c10OldRow].filter fun r => decide (cutoffDate ≤ r.created_at)) = [] := rfl
    rw [hf, List.mergeSort_nil, List.map_nil]
  · rfl

/-- C10, amended: the listing returns one summary entry (with
`lessonCount` the stored lesson count) per stored course whose creation
time is at or after the hard-coded cutoff `2024-12-06T00:00:00.000Z`,
ordered by creation time descending; courses older than the cutoff are
omitted. -/
theorem listCourses_amended (db : List DbRow) :
    List.Sorted (fun a b : CourseSummary => b.createdAt ≤ a.createdAt)
        (listCourses db) ∧
      (listCourses db).Perm
        ((db.filter fun r => decide (cutoffDate ≤ r.created_at)).map summarize) := by
  constructor
  · have hs := @List.sorted_mergeSort DbRow newerFirst
      (fun a b c hab hbc => by
        simp only [newerFirst, decide_eq_true_eq] at *; omega)
      (fun a b => by
        simp only [newerFirst, Bool.or_eq_true, decide_eq_true_eq]; omega)
      (db.filter fun r => decide (cutoffDate ≤ r.created_at))
    unfold listCourses
    rw [List.Sorted, List.pairwise_map]
    exact hs.imp fun h => by
      simp only [newerFirst, decide_eq_true_eq] at h; exact h
  · exact (List.mergeSort_perm _ newerFirst).map summarize

/-- C8, counterexample: after a successful export and download of course
`course-1`, the export directory and the rendered `index.html` still
exist — the handler removes only the zip, so the temporary export state is
not fully cleaned up even on the success path. -/
theorem exportCleanup_counterexample :
    exportHtmlPath "course-1" ∈ exportFinalFs [] "course-1" DownloadResult.ok ∧
      exportDirPath "course-1" ∈ exportFinalFs [] "course-1" DownloadResult.ok ∧
      exportFinalFs [] "course-1" DownloadResult.ok ≠ [] := by
  refine ⟨?_, ?_, ?_⟩ <;> decide

/-- C8, amended: per export request the handler creates the export
directory, `index.html` and the zip; after the response only the zip is
removed when the download succeeded, and nothing is removed when it
failed — the export directory and `index.html` always survive. -/
theorem exportFinalFs_amended (courseId : String) :
    exportFinalFs [] courseId DownloadResult.ok =
        [exportHtmlPath courseId, exportDirPath courseId] ∧
      exportFinalFs [] courseId DownloadResult.failed =
        [exportZipPath courseId, exportHtmlPath courseId, exportDirPath courseId] := by
  have hlen : ∀ s t : String, (s ++ t).length = s.length + t.length :=
    String.length_append
  have hne : ∀ s t : String, s.length ≠ t.length → s ≠ t := by
    intro s t h he
    exact h (he ▸ rfl)
  have e2 : ("/index.html" : String).length = 11 := rfl
  have e3 : (".zip" : String).length = 4 := rfl
  have h1 : exportHtmlPath courseId ≠ exportDirPath courseId := by
    apply hne
    simp only [exportHtmlPath, exportDirPath, hlen, e2]
    omega
  have h2 : exportZipPath courseId ≠ exportHtmlPath courseId := by
    apply hne
    simp only [exportZipPath, exportHtmlPath, hlen, e2, e3]
    omega
  have h3 : exportZipPath courseId ≠ exportDirPath courseId := by
    apply hne
    simp only [exportZipPath, exportDirPath, hlen, e3]
    omega
  constructor <;>
    simp [exportFinalFs, exportOps, applyFsOp, List.foldl, h1, h2, h3,
      List.erase_cons, beq_iff_eq]

/-- An infix of the left part is an infix of an append. -/
theorem infix_append_left {α : Type} {X A : List α} (B : List α)
    (h : List.IsInfix X A) : List.IsInfix X (A ++ B) := by
  obtain ⟨s, t, rfl⟩ := h
  exact ⟨s, t ++ B, by simp⟩

/-- An infix of the right part is an infix of an append. -/
theorem infix_append_right {α : Type} (A : List α) {X B : List α}
    (h : List.IsInfix X B) : List.IsInfix X (A ++ B) := by
  obtain ⟨s, t, rfl⟩ := h
  exact ⟨A ++ s, t, by simp⟩

/-- The inline course-data literal `JSON.stringify(course, null, 2)` is a
contiguous segment of the exported page. -/
theorem jCourse_segment (env : RenderEnv) (c : Course) :
    List.IsInfix (jCourse c) (generateStandaloneApp env c) := by
  unfold generateStandaloneApp
  exact infix_append_left _ (infix_append_right _ (List.infix_refl _))

/-- The CDN script tag for marked.js is a contiguous segment of every
exported page. -/
theorem cdn_segment (env : RenderEnv) (c : Course) :
    List.IsInfix cdnScriptTag (generateStandaloneApp env c) := by
  unfold generateStandaloneApp
  exact infix_append_left _ (infix_append_left _ (infix_append_left _
    (infix_append_left _ (infix_append_left _ (infix_append_left _
      (infix_append_left _ (infix_append_left _ (infix_append_left _
        (infix_append_right _ (List.infix_refl _))))))))))

/-- The whole trailing inline script chunk is a contiguous segment of
every exported page. -/
theorem tplT5_segment (env : RenderEnv) (c : Course) :
    List.IsInfix tplT5 (generateStandaloneApp env c) := by
  unfold generateStandaloneApp
  exact infix_append_right _ (List.infix_refl _)

set_option maxRecDepth 40000 in
/-- C2 (code bug): exporting the course whose lesson content is
`<script>alert(1)</script>` produces HTML in which that string occurs
verbatim — unescaped — because `generateStandaloneApp` interpolates
`JSON.stringify(course, null, 2)` into the inline script without any HTML
escaping (and likewise interpolates `course.title` raw into `<title>`),
contradicting the requirement that user-supplied text appear only
HTML-escaped. -/
theorem export_script_injection_raw :
    List.IsInfix (S "<script>alert(1)</script>")
      (generateStandaloneApp env0 c2Course) := by
  have h : List.IsInfix (S "<script>alert(1)</script>") (jCourse c2Course) := by
    decide
  exact h.trans (jCourse_segment env0 c2Course)

set_option maxRecDepth 40000 in
/-- C7, counterexample: the exported page of even an empty course contains
`<script src="https://...`, an external script reference (the marked.js
CDN tag), so the document is not free of external resources and performs a
network call at view time. -/
theorem export_external_reference_counterexample :
    List.IsInfix (S "<script src=\"https://")
      (generateStandaloneApp env0 c7Course) := by
  have h : List.IsInfix (S "<script src=\"https://") cdnScriptTag := by decide
  exact h.trans (cdn_segment env0 c7Course)

/-- C7, amended: every exported page is one HTML document whose
interaction logic (option selection, answer checking, solution toggling)
is carried by inline script — the definitions of `handleAnswerSelect`,
`checkAnswer` and `toggleCodeSolution` occur verbatim in the output — but
the fixed template also always embeds one external resource, the marked.js
CDN script tag. -/
theorem export_inline_handlers_and_cdn (env : RenderEnv) (c : Course) :
    List.IsInfix cdnScriptTag (generateStandaloneApp env c) ∧
      List.IsInfix fnHandleAnswerSelect (generateStandaloneApp env c) ∧
      List.IsInfix fnCheckAnswer (generateStandaloneApp env c) ∧
      List.IsInfix fnToggleCodeSolution (generateStandaloneApp env c) := by
  refine ⟨cdn_segment env c, ?_, ?_, ?_⟩ <;>
    refine List.IsInfix.trans ?_ (tplT5_segment env c) <;> unfold tplT5
  · exact infix_append_left _ (infix_append_left _ (infix_append_left _
      (infix_append_right _ (List.infix_refl _))))
  · exact infix_append_left _ (infix_append_left _
      (infix_append_right _ (List.infix_refl _)))
  · exact infix_append_left _ (infix_append_right _ (List.infix_refl _))

/-! ### The brace scan over grammar segments -/

/-- `plainChar` unpacked. -/
theorem plainChar_iff {c : Char} :
    plainChar c = true ↔ c ≠ '{' ∧ c ≠ '}' ∧ c ≠ '"' ∧ c ≠ '\\' := by
  simp only [plainChar, Bool.not_eq_true', Bool.or_eq_false_iff,
    decide_eq_false_iff_not]
  tauto

/-- One scan step in escape state: the character is skipped. -/
theorem scanLoop_esc (c : Char) (cs : List Char) (d : Int) (inStr : Bool) :
    scanLoop (c :: cs) d inStr true = (scanLoop cs d inStr false).map (· + 1) := by
  simp [scanLoop]

/-- One scan step on a backslash: enter escape state. -/
theorem scanLoop_backslash (cs : List Char) (d : Int) (inStr : Bool) :
    scanLoop ('\\' :: cs) d inStr false = (scanLoop cs d inStr true).map (· + 1) := by
  simp [scanLoop]

/-- One scan step on a double quote: toggle the string state. -/
theorem scanLoop_quote (cs : List Char) (d : Int) (inStr : Bool) :
    scanLoop ('"' :: cs) d inStr false =
      (scanLoop cs d (!inStr) false).map (· + 1) := by
  simp [scanLoop]

/-- One scan step on an ordinary character inside a string. -/
theorem scanLoop_inStr {c : Char} (h1 : c ≠ '\\') (h2 : c ≠ '"')
    (cs : List Char) (d : Int) :
    scanLoop (c :: cs) d true false = (scanLoop cs d true false).map (· + 1) := by
  simp [scanLoop, h1, h2]

/-- One scan step on an opening brace outside a string. -/
theorem scanLoop_open (cs : List Char) (d : Int) :
    scanLoop ('{' :: cs) d false false =
      if d + 1 = 0 then some 1 else (scanLoop cs (d + 1) false false).map (· + 1) := by
  simp [scanLoop]

/-- One scan step on a closing brace outside a string. -/
theorem scanLoop_close (cs : List Char) (d : Int) :
    scanLoop ('}' :: cs) d false false =
      if d - 1 = 0 then some 1 else (scanLoop cs (d - 1) false false).map (· + 1) := by
  simp [scanLoop]

/-- One scan step on a non-structural character outside a string. -/
theorem scanLoop_plain {c : Char} (h : plainChar c = true) (cs : List Char) (d : Int) :
    scanLoop (c :: cs) d false false =
      if d = 0 then some 1 else (scanLoop cs d false false).map (· + 1) := by
  obtain ⟨h1, h2, h3, h4⟩ := plainChar_iff.mp h
  simp [scanLoop, h1, h2, h3, h4]

/-- Inside a string the scanner consumes a `StrBody` and its closing quote
without touching the depth, ending back outside the string. -/
theorem scanLoop_str {b : List Char} (hb : StrBody b) (rest : List Char) (d : Int) :
    scanLoop (b ++ '"' :: rest) d true false =
      (scanLoop rest d false false).map (· + (b.length + 1)) := by
  induction hb with
  | nil =>
    rw [List.nil_append, scanLoop_quote, Bool.not_true]
    cases h : scanLoop rest d false false <;> simp [h]
  | @plain c s hq hbs ihp ih =>
    rw [List.cons_append, scanLoop_inStr hbs hq, ih]
    cases h : scanLoop rest d false false <;> simp [h] <;> omega
  | @esc c s ihp ih =>
    rw [List.cons_append, scanLoop_backslash, List.cons_append, scanLoop_esc, ih]
    cases h : scanLoop rest d false false <;> simp [h] <;> omega

/-- Outside a string, at positive depth, the scanner passes over a
scan-neutral segment: same state, position advanced by its length. -/
theorem scanLoop_neutral {w : List Char} (hw : ScanNeutral w) :
    ∀ (rest : List Char) (d : Int), 1 ≤ d →
      scanLoop (w ++ rest) d false false =
        (scanLoop rest d false false).map (· + w.length) := by
  induction hw with
  | nil =>
    intro rest d hd
    rw [List.nil_append]
    cases h : scanLoop rest d false false <;> simp [h]
  | @plain c s hc ihp ih =>
    intro rest d hd
    rw [List.cons_append, scanLoop_plain hc, if_neg (by omega : ¬(d = 0)),
      ih rest d hd]
    cases h : scanLoop rest d false false <;> simp [h] <;> omega
  | @str b s hb ihp ih =>
    intro rest d hd
    have hsh : ('"' :: b ++ '"' :: s) ++ rest = '"' :: (b ++ '"' :: (s ++ rest)) := by
      simp
    rw [hsh, scanLoop_quote, Bool.not_false, scanLoop_str hb (s ++ rest) d,
      ih rest d hd]
    cases h : scanLoop rest d false false <;> simp [h] <;> omega
  | @obj inner s hi hs ihi ihs =>
    intro rest d hd
    have hsh : ('{' :: inner ++ '}' :: s) ++ rest =
        '{' :: (inner ++ '}' :: (s ++ rest)) := by
      simp
    rw [hsh, scanLoop_open, if_neg (by omega : ¬(d + 1 = 0)),
      ihi ('}' :: (s ++ rest)) (d + 1) (by omega),
      scanLoop_close, if_neg (by omega : ¬(d + 1 - 1 = 0)),
      (by omega : d + 1 - 1 = d), ihs rest d hd]
    cases h : scanLoop rest d false false <;> simp [h] <;> omega

/-- Started at the opening brace of a well-formed object (in the
scan-neutral sense), the scan stops exactly at the matching closing
brace. -/
theorem scanLoop_object {inner : List Char} (hi : ScanNeutral inner)
    (post : List Char) :
    scanLoop (('{' :: inner ++ ['}']) ++ post) 0 false false =
      some (inner.length + 2) := by
  have hsh : ('{' :: inner ++ ['}']) ++ post = '{' :: (inner ++ '}' :: post) := by
    simp
  rw [hsh, scanLoop_open, if_neg (by omega : ¬((0 : Int) + 1 = 0)),
    scanLoop_neutral hi ('}' :: post) (0 + 1) (by omega),
    scanLoop_close, if_pos (by omega : (0 : Int) + 1 - 1 = 0)]
  simp only [Option.map_some']
  norm_num
  omega

/-! ### Scan-neutral closure and the consumed prefixes of the JSON
recognizer -/

/-- Scan-neutral segments are closed under concatenation. -/
theorem ScanNeutral.append {a : List Char} (ha : ScanNeutral a) :
    ∀ {b : List Char}, ScanNeutral b → ScanNeutral (a ++ b) := by
  induction ha with
  | nil => intro b hb; simpa
  | plain hc _ ih => intro b hb; exact .plain hc (ih hb)
  | @str sb ss hsb _ ih =>
    intro b hb
    have : ('"' :: sb ++ '"' :: ss) ++ b = '"' :: sb ++ '"' :: (ss ++ b) := by simp
    rw [this]
    exact .str hsb (ih hb)
  | @obj inner ss hi _ _ ih =>
    intro b hb
    have : ('{' :: inner ++ '}' :: ss) ++ b = '{' :: inner ++ '}' :: (ss ++ b) := by
      simp
    rw [this]
    exact .obj hi (ih hb)

/-- A run of non-structural characters is scan-neutral. -/
theorem neutral_of_plain : ∀ {t : List Char},
    (∀ c ∈ t, plainChar c = true) → ScanNeutral t
  | [], _ => .nil
  | c :: t, h =>
    .plain (h c (by simp)) (neutral_of_plain fun d hd => h d (by simp [hd]))

/-- JSON whitespace plays no role in the scanner. -/
theorem jsonWs_plain {c : Char} (h : jsonWs c = true) : plainChar c = true := by
  simp only [jsonWs, Bool.or_eq_true, decide_eq_true_eq] at h
  rcases h with ((rfl | rfl) | rfl) | rfl <;> decide

/-- Digits play no role in the scanner. -/
theorem isDigit_plain {c : Char} (h : isDigit c = true) : plainChar c = true := by
  rw [plainChar_iff]
  refine ⟨?_, ?_, ?_, ?_⟩ <;> rintro rfl <;> revert h <;> decide

/-- A hex digit is neither a quote nor a backslash. -/
theorem isHexDigit_notStr {c : Char} (h : isHexDigit c = true) :
    c ≠ '"' ∧ c ≠ '\\' := by
  constructor <;> rintro rfl <;> revert h <;> decide

theorem neutralPre_refl (cs : List Char) : NeutralPre cs cs :=
  ⟨[], by simp, .nil⟩

theorem neutralPre_trans {a b c : List Char} (h1 : NeutralPre a b)
    (h2 : NeutralPre b c) : NeutralPre a c := by
  obtain ⟨t1, rfl, hn1⟩ := h1
  obtain ⟨t2, rfl, hn2⟩ := h2
  exact ⟨t1 ++ t2, by simp, hn1.append hn2⟩

theorem neutralPre_cons_plain {c : Char} (h : plainChar c = true)
    {cs r : List Char} (h2 : NeutralPre cs r) : NeutralPre (c :: cs) r := by
  obtain ⟨t, rfl, hn⟩ := h2
  exact ⟨c :: t, by simp, .plain h hn⟩

/-- Dropping a run of characters from a scanner-neutral class is a
neutral-prefix step. -/
theorem neutralPre_dropWhile (p : Char → Bool)
    (hp : ∀ c, p c = true → plainChar c = true) (cs : List Char) :
    NeutralPre cs (cs.dropWhile p) :=
  ⟨cs.takeWhile p, (List.takeWhile_append_dropWhile p cs).symm,
    neutral_of_plain fun _ hc => hp _ (List.mem_takeWhile_imp hc)⟩

theorem neutralPre_skipWs (cs : List Char) : NeutralPre cs (skipWs cs) :=
  neutralPre_dropWhile jsonWs (fun _ => jsonWs_plain) cs

/-- What a successful `strTail` consumed: a string body and the closing
quote. -/
theorem strTail_shape : ∀ (fuel : Nat) (cs r : List Char),
    strTail fuel cs = some r → ∃ b, cs = b ++ '"' :: r ∧ StrBody b
  | 0, cs, r, h => by simp [strTail] at h
  | fuel + 1, [], r, h => by simp [strTail] at h
  | fuel + 1, c :: cs, r, h => by
    simp only [strTail] at h
    split at h
    · next hq =>
      subst hq
      simp only [Option.some.injEq] at h
      subst h
      exact ⟨[], by simp, .nil⟩
    · next hq =>
      split at h
      · next hbs =>
        subst hbs
        split at h
        · simp at h
        · next e cs2 =>
          split at h
          · next hu =>
            subst hu
            split at h
            · next a b2 c2 d cs3 =>
              split at h
              · next hhex =>
                obtain ⟨bb, hb, hbb⟩ := strTail_shape fuel cs3 r h
                subst hb
                simp only [Bool.and_eq_true] at hhex
                obtain ⟨⟨⟨ha, hb2⟩, hc2⟩, hd⟩ := hhex
                refine ⟨'\\' :: 'u' :: a :: b2 :: c2 :: d :: bb, by simp, ?_⟩
                exact .esc (.plain (isHexDigit_notStr ha).1 (isHexDigit_notStr ha).2
                  (.plain (isHexDigit_notStr hb2).1 (isHexDigit_notStr hb2).2
                    (.plain (isHexDigit_notStr hc2).1 (isHexDigit_notStr hc2).2
                      (.plain (isHexDigit_notStr hd).1 (isHexDigit_notStr hd).2 hbb))))
              · simp at h
            · simp at h
          · next hu =>
            split at h
            · next hesc =>
              obtain ⟨bb, hb, hbb⟩ := strTail_shape fuel cs2 r h
              subst hb
              exact ⟨'\\' :: e :: bb, by simp, .esc hbb⟩
            · simp at h
      · next hbs =>
        split at h
        · simp at h
        · obtain ⟨bb, hb, hbb⟩ := strTail_shape fuel cs r h
          subst hb
          exact ⟨c :: bb, by simp, .plain hq hbs hbb⟩

/-- The consumed part of a successful string token is scan-neutral. -/
theorem neutralPre_str {fuel : Nat} {cs r : List Char}
    (h : strTail fuel cs = some r) : NeutralPre ('"' :: cs) r := by
  obtain ⟨b, rfl, hb⟩ := strTail_shape fuel cs r h
  exact ⟨'"' :: b ++ ['"'], by simp, by simpa using ScanNeutral.str hb .nil⟩

theorem digits1_neutralPre {cs r : List Char} (h : digits1 cs = some r) :
    NeutralPre cs r := by
  unfold digits1 at h
  split at h
  · split at h
    · simp only [Option.some.injEq] at h
      subst h
      exact neutralPre_dropWhile isDigit (fun _ => isDigit_plain) _
    · simp at h
  · simp at h

theorem expNum_neutralPre {cs r : List Char} (h : expNum cs = some r) :
    NeutralPre cs r := by
  unfold expNum at h
  split at h
  · exact neutralPre_cons_plain (by decide) (digits1_neutralPre h)
  · exact neutralPre_cons_plain (by decide) (digits1_neutralPre h)
  · exact digits1_neutralPre h

theorem expTail_neutralPre {cs r : List Char} (h : expTail cs = some r) :
    NeutralPre cs r := by
  unfold expTail at h
  split at h
  · exact neutralPre_cons_plain (by decide) (expNum_neutralPre h)
  · exact neutralPre_cons_plain (by decide) (expNum_neutralPre h)
  · simp only [Option.some.injEq] at h
    subst h
    exact neutralPre_refl _

theorem fracTail_neutralPre {cs r : List Char} (h : fracTail cs = some r) :
    NeutralPre cs r := by
  unfold fracTail at h
  split at h
  · next rr =>
    split at h
    · next r2 hd =>
      exact neutralPre_cons_plain (by decide)
        (neutralPre_trans (digits1_neutralPre hd) (expTail_neutralPre h))
    · simp at h
  · exact expTail_neutralPre h

theorem intPart_neutralPre {cs r : List Char} (h : intPart cs = some r) :
    NeutralPre cs r := by
  unfold intPart at h
  split at h
  · next c rr =>
    split at h
    · next hc =>
      subst hc
      exact neutralPre_cons_plain (by decide) (fracTail_neutralPre h)
    · split at h
      · next hd =>
        simp only [Bool.and_eq_true, decide_eq_true_eq] at hd
        refine neutralPre_cons_plain ?_ (neutralPre_trans
          (neutralPre_dropWhile isDigit (fun _ => isDigit_plain) rr)
          (fracTail_neutralPre h))
        obtain ⟨hd1, hd2⟩ := hd
        rw [plainChar_iff]
        refine ⟨?_, ?_, ?_, ?_⟩
        · rintro rfl; revert hd2; decide
        · rintro rfl; revert hd2; decide
        · rintro rfl; revert hd1; decide
        · rintro rfl; revert hd2; decide
      · simp at h
  · simp at h

theorem numTail_neutralPre {cs r : List Char} (h : numTail cs = some r) :
    NeutralPre cs r := by
  unfold numTail at h
  split at h
  · exact neutralPre_cons_plain (by decide) (intPart_neutralPre h)
  · exact intPart_neutralPre h

theorem objPre_here (r : List Char) : ObjPre ('}' :: r) r :=
  ⟨[], rfl, .nil⟩

theorem objPre_pre {a b r : List Char} (h1 : NeutralPre a b) (h2 : ObjPre b r) :
    ObjPre a r := by
  obtain ⟨t, rfl, hn⟩ := h1
  obtain ⟨inner, rfl, hi⟩ := h2
  exact ⟨t ++ inner, by simp, hn.append hi⟩

/-- A complete object (opening brace, neutral interior, closing brace) is
itself scan-neutral as a segment. -/
theorem objPre_neutralPre {cs r : List Char} (h : ObjPre cs r) :
    NeutralPre ('{' :: cs) r := by
  obtain ⟨inner, rfl, hi⟩ := h
  exact ⟨'{' :: inner ++ ['}'], by simp, by simpa using ScanNeutral.obj hi .nil⟩

set_option maxHeartbeats 2000000 in
mutual

/-- What a successful `vConsume` consumed is scan-neutral. -/
theorem vConsume_shape : ∀ (fuel : Nat) (cs r : List Char),
    vConsume fuel cs = some r → NeutralPre cs r
  | 0, cs, r, h => by simp [vConsume] at h
  | fuel + 1, cs, r, h => by
    simp only [vConsume] at h
    split at h
    · exact neutralPre_str h
    · next rr => exact objPre_neutralPre (objTail_shape fuel rr r h)
    · next rr =>
      exact neutralPre_cons_plain (by decide) (arrTail_shape fuel rr r h)
    · simp only [Option.some.injEq] at h
      subst h
      exact neutralPre_cons_plain (by decide) (neutralPre_cons_plain (by decide)
        (neutralPre_cons_plain (by decide) (neutralPre_cons_plain (by decide)
          (neutralPre_refl _))))
    · simp only [Option.some.injEq] at h
      subst h
      exact neutralPre_cons_plain (by decide) (neutralPre_cons_plain (by decide)
        (neutralPre_cons_plain (by decide) (neutralPre_cons_plain (by decide)
          (neutralPre_cons_plain (by decide) (neutralPre_refl _)))))
    · simp only [Option.some.injEq] at h
      subst h
      exact neutralPre_cons_plain (by decide) (neutralPre_cons_plain (by decide)
        (neutralPre_cons_plain (by decide) (neutralPre_cons_plain (by decide)
          (neutralPre_refl _))))
    · exact numTail_neutralPre h

/-- What a successful `objTail` consumed: a scan-neutral interior and the
closing brace. -/
theorem objTail_shape : ∀ (fuel : Nat) (cs r : List Char),
    objTail fuel cs = some r → ObjPre cs r
  | 0, cs, r, h => by simp [objTail] at h
  | fuel + 1, cs, r, h => by
    simp only [objTail] at h
    split at h
    · next rr heq =>
      simp only [Option.some.injEq] at h
      subst h
      have h1 := neutralPre_skipWs cs
      rw [heq] at h1
      exact objPre_pre h1 (objPre_here _)
    · exact objPre_pre (neutralPre_skipWs cs) (memTail_shape fuel (skipWs cs) r h)

/-- What a successful `memTail` consumed: members (scan-neutral) and the
closing brace. -/
theorem memTail_shape : ∀ (fuel : Nat) (cs r : List Char),
    memTail fuel cs = some r → ObjPre cs r
  | 0, cs, r, h => by simp [memTail] at h
  | fuel + 1, cs, r, h => by
    simp only [memTail] at h
    split at h
    · next rr =>
      split at h
      · simp at h
      · next r1 heq1 =>
        split at h
        · next r2 heq2 =>
          split at h
          · simp at h
          · next r3 heq3 =>
            have n1 : NeutralPre ('"' :: rr) r3 := by
              refine neutralPre_trans (neutralPre_str heq1) ?_
              have h2 := neutralPre_skipWs r1
              rw [heq2] at h2
              refine neutralPre_trans h2 ?_
              refine neutralPre_cons_plain (by decide) ?_
              exact neutralPre_trans (neutralPre_skipWs r2)
                (vConsume_shape fuel (skipWs r2) r3 heq3)
            split at h
            · next r4 heq4 =>
              have h3 := neutralPre_skipWs r3
              rw [heq4] at h3
              refine objPre_pre (neutralPre_trans n1 ?_)
                (memTail_shape fuel (skipWs r4) r h)
              exact neutralPre_trans h3 (neutralPre_cons_plain (by decide)
                (neutralPre_skipWs r4))
            · next r4 heq4 =>
              simp only [Option.some.injEq] at h
              subst h
              have h3 := neutralPre_skipWs r3
              rw [heq4] at h3
              exact objPre_pre (neutralPre_trans n1 h3) (objPre_here _)
            · simp at h
        · simp at h
    · simp at h

/-- What a successful `arrTail` consumed is scan-neutral (the brackets
have no scanner role). -/
theorem arrTail_shape : ∀ (fuel : Nat) (cs r : List Char),
    arrTail fuel cs = some r → NeutralPre cs r
  | 0, cs, r, h => by simp [arrTail] at h
  | fuel + 1, cs, r, h => by
    simp only [arrTail] at h
    split at h
    · next rr heq =>
      simp only [Option.some.injEq] at h
      subst h
      have h1 := neutralPre_skipWs cs
      rw [heq] at h1
      exact neutralPre_trans h1 (neutralPre_cons_plain (by decide)
        (neutralPre_refl _))
    · exact neutralPre_trans (neutralPre_skipWs cs)
        (elemTail_shape fuel (skipWs cs) r h)

/-- What a successful `elemTail` consumed is scan-neutral. -/
theorem elemTail_shape : ∀ (fuel : Nat) (cs r : List Char),
    elemTail fuel cs = some r → NeutralPre cs r
  | 0, cs, r, h => by simp [elemTail] at h
  | fuel + 1, cs, r, h => by
    simp only [elemTail] at h
    split at h
    · simp at h
    · next r0 heq0 =>
      have n1 : NeutralPre cs r0 := vConsume_shape fuel cs r0 heq0
      split at h
      · next r2 heq2 =>
        have h2 := neutralPre_skipWs r0
        rw [heq2] at h2
        exact neutralPre_trans n1 (neutralPre_trans h2
          (neutralPre_cons_plain (by decide) (neutralPre_trans
            (neutralPre_skipWs r2) (elemTail_shape fuel (skipWs r2) r h))))
      · next r2 heq2 =>
        simp only [Option.some.injEq] at h
        subst h
        have h2 := neutralPre_skipWs r0
        rw [heq2] at h2
        exact neutralPre_trans n1 (neutralPre_trans h2
          (neutralPre_cons_plain (by decide) (neutralPre_refl _)))
      · simp at h

end

/-- What a successful `objConsume` consumed: exactly one well-formed
object text — opening brace, scan-neutral interior, matching closing
brace. -/
theorem objConsume_shape {fuel : Nat} {cs r : List Char}
    (h : objConsume fuel cs = some r) :
    ∃ inner, cs = ('{' :: inner ++ ['}']) ++ r ∧ ScanNeutral inner := by
  unfold objConsume at h
  split at h
  · next rr =>
    obtain ⟨inner, rfl, hi⟩ := objTail_shape fuel rr r h
    exact ⟨inner, by simp, hi⟩
  · simp at h

/-! ### Fence matching and trimming -/

theorem startsWithSeq_append_self :
    ∀ (p rest : List Char), startsWithSeq p (p ++ rest) = true
  | [], _ => rfl
  | c :: p, rest => by
    simp [startsWithSeq, startsWithSeq_append_self p rest]

theorem startsWithSeq_mono :
    ∀ (p q rest : List Char), startsWithSeq (p ++ q) rest = true →
      startsWithSeq p rest = true
  | [], _, _, _ => rfl
  | c :: p, q, rest, h => by
    cases rest with
    | nil => simp [startsWithSeq] at h
    | cons d rest =>
      simp only [List.cons_append, startsWithSeq, Bool.and_eq_true] at h ⊢
      exact ⟨h.1, startsWithSeq_mono p q rest h.2⟩

theorem containsSeq_cons_false {pat : List Char} {c : Char} {cs : List Char}
    (h : containsSeq pat (c :: cs) = false) :
    startsWithSeq pat (c :: cs) = false ∧ containsSeq pat cs = false := by
  unfold containsSeq findSplitSeq at h
  constructor
  · cases hsw : startsWithSeq pat (c :: cs)
    · rfl
    · rw [hsw] at h
      simp at h
  · cases hsw : startsWithSeq pat (c :: cs) <;> rw [hsw] at h
    · unfold containsSeq
      cases hf : findSplitSeq pat cs with
      | none => simp [hf]
      | some ab =>
        rw [hf] at h
        cases ab
        simp at h
    · simp at h

theorem tryFenceAt_none {lbl cs : List Char}
    (h : startsWithSeq lbl cs = false) : tryFenceAt lbl cs = none := by
  unfold tryFenceAt
  simp [h]

/-- When the text contains no triple backtick, neither fence regex
matches anywhere (both fence openers start with three backticks). -/
theorem fenceSearch_none {lbl : List Char} (tail : List Char)
    (hl : lbl = bt3 ++ tail) :
    ∀ cs, containsSeq bt3 cs = false → fenceSearch lbl cs = none
  | [], _ => rfl
  | c :: cs, h => by
    obtain ⟨h1, h2⟩ := containsSeq_cons_false h
    have hsw : startsWithSeq lbl (c :: cs) = false := by
      cases hs : startsWithSeq lbl (c :: cs)
      · rfl
      · rw [hl] at hs
        rw [startsWithSeq_mono bt3 tail (c :: cs) hs] at h1
        exact h1
    rw [fenceSearch, tryFenceAt_none hsw]
    exact fenceSearch_none tail hl cs h2

/-- The fence search skips any prefix free of backticks (a fence opener
starts with a backtick). -/
theorem fenceSearch_skip {lbl lblTail : List Char} (hl : lbl = '`' :: lblTail) :
    ∀ (pre : List Char), (∀ c ∈ pre, c ≠ '`') → ∀ rest,
      fenceSearch lbl (pre ++ rest) = fenceSearch lbl rest
  | [], _, rest => rfl
  | c :: pre, h, rest => by
    have hc : c ≠ '`' := h c (by simp)
    have hsw : startsWithSeq lbl (c :: (pre ++ rest)) = false := by
      rw [hl]
      cases hs : startsWithSeq ('`' :: lblTail) (c :: (pre ++ rest))
      · rfl
      · simp only [startsWithSeq, Bool.and_eq_true, decide_eq_true_eq] at hs
        exact absurd hs.1.symm hc
    rw [List.cons_append, fenceSearch, tryFenceAt_none hsw]
    exact fenceSearch_skip hl pre (fun d hd => h d (by simp [hd])) rest

/-- A match of the closing fence pattern cannot straddle the boundary
between `body` and the appended closer: the pattern starts with a newline
and continues with backticks, so a straddling occurrence is impossible. -/
theorem nlBt3_no_straddle :
    ∀ (body post : List Char), body ≠ [] →
      startsWithSeq nlBt3 (body ++ (nlBt3 ++ post)) = true →
      startsWithSeq nlBt3 body = true := by
  intro body post hne h
  match body with
  | [] => exact absurd rfl hne
  | [x] =>
    simp only [nlBt3, List.cons_append, List.nil_append, startsWithSeq,
      Bool.and_eq_true, decide_eq_true_eq] at h
    exact absurd h.2.1 (by decide)
  | [x, y] =>
    simp only [nlBt3, List.cons_append, List.nil_append, startsWithSeq,
      Bool.and_eq_true, decide_eq_true_eq] at h
    exact absurd h.2.2.1 (by decide)
  | [x, y, z] =>
    simp only [nlBt3, List.cons_append, List.nil_append, startsWithSeq,
      Bool.and_eq_true, decide_eq_true_eq] at h
    exact absurd h.2.2.2.1 (by decide)
  | x :: y :: z :: w :: t =>
    simp only [nlBt3, List.cons_append, startsWithSeq, Bool.and_eq_true,
      decide_eq_true_eq] at h ⊢
    exact ⟨h.1, h.2.1, h.2.2.1, h.2.2.2.1, trivial⟩

/-- Searching for the closing fence pattern in `body ++ closer ++ post`
finds exactly the closer when `body` itself contains none. -/
theorem findSplit_closer :
    ∀ (body post : List Char), containsSeq nlBt3 body = false →
      findSplitSeq nlBt3 (body ++ (nlBt3 ++ post)) = some (body, post)
  | [], post, _ => by
    rw [List.nil_append]
    show findSplitSeq nlBt3 (nlBt3 ++ post) = some ([], post)
    have h4 : (nlBt3 ++ post) = '\n' :: ('`' :: '`' :: '`' :: post) := by
      simp [nlBt3]
    rw [h4, findSplitSeq]
    rw [if_pos (by
      rw [← h4]
      exact startsWithSeq_append_self nlBt3 post)]
    have hdr : ('\n' :: ('`' :: '`' :: '`' :: post)).drop nlBt3.length = post := by
      rw [← h4]
      exact List.drop_left nlBt3 post
    rw [hdr]
  | c :: body, post, h => by
    obtain ⟨h1, h2⟩ := containsSeq_cons_false h
    have hsw : startsWithSeq nlBt3 (c :: (body ++ (nlBt3 ++ post))) = false := by
      cases hs : startsWithSeq nlBt3 (c :: (body ++ (nlBt3 ++ post)))
      · rfl
      · rw [← List.cons_append] at hs
        rw [nlBt3_no_straddle (c :: body) post (by simp) hs] at h1
        exact h1
    rw [List.cons_append, findSplitSeq]
    rw [if_neg (by simp [hsw])]
    rw [findSplit_closer body post h2]

/-- The fence regex attempt at the opening of a json fence whose interior
starts with a non-whitespace character returns exactly the interior up to
the closer. -/
theorem tryFenceAt_fence (b : Char) (bt post : List Char)
    (hws : jsWsChar b = false) (hb : containsSeq nlBt3 (b :: bt) = false) :
    tryFenceAt fenceJson (fenceJson ++ '\n' :: ((b :: bt) ++ (nlBt3 ++ post))) =
      some (b :: bt) := by
  unfold tryFenceAt
  rw [if_pos (startsWithSeq_append_self fenceJson _)]
  rw [List.drop_left fenceJson _]
  have hrun : ('\n' :: ((b :: bt) ++ (nlBt3 ++ post))).takeWhile jsWsChar =
      ['\n'] := by
    rw [List.takeWhile_cons, if_pos (by decide), List.cons_append,
      List.takeWhile_cons, if_neg (by simp [hws])]
  have hlast : lastIdxOf '\n' ['\n'] = some 0 := rfl
  have hdrop : List.drop (0 + 1) ('\n' :: ((b :: bt) ++ (nlBt3 ++ post))) =
      (b :: bt) ++ (nlBt3 ++ post) := rfl
  simp only [hrun, hlast, hdrop, findSplit_closer (b :: bt) post hb]

/-! ### Trimming -/

/-- `jsTrim` leaves a text alone when both ends are non-whitespace. -/
theorem jsTrim_eq_self {cs : List Char}
    (h1 : ∀ c, cs.head? = some c → jsWsChar c = false)
    (h2 : ∀ c, cs.getLast? = some c → jsWsChar c = false) : jsTrim cs = cs := by
  unfold jsTrim
  have hd : cs.dropWhile jsWsChar = cs := by
    cases cs with
    | nil => rfl
    | cons c t =>
      rw [List.dropWhile_cons, if_neg (by simp [h1 c rfl])]
  rw [hd]
  have hr : cs.reverse.dropWhile jsWsChar = cs.reverse := by
    cases hrev : cs.reverse with
    | nil => rfl
    | cons c t =>
      rw [List.dropWhile_cons]
      rw [if_neg (by
        have hgl : cs.getLast? = some c := by
          rw [← List.head?_reverse, hrev, List.head?_cons]
        simp [h2 c hgl])]
  rw [hr, List.reverse_reverse]

/-- `jsTrim` preserves a non-whitespace head character. -/
theorem jsTrim_head {cs : List Char} {c : Char} (h : cs.head? = some c)
    (hws : jsWsChar c = false) : (jsTrim cs).head? = some c := by
  unfold jsTrim
  cases cs with
  | nil => simp at h
  | cons d t =>
    simp only [List.head?_cons, Option.some.injEq] at h
    subst h
    rw [List.dropWhile_cons, if_neg (by simp [hws])]
    have hsuf : (d :: t).reverse.dropWhile jsWsChar <:+ (d :: t).reverse :=
      List.dropWhile_suffix jsWsChar
    obtain ⟨pre, hpre⟩ := hsuf
    have hne : (d :: t).reverse.dropWhile jsWsChar ≠ [] := by
      intro hnil
      have hmem := List.dropWhile_eq_nil_iff.mp hnil d (by simp)
      rw [hws] at hmem
      exact absurd hmem (by simp)
    rw [List.head?_reverse]
    have hglrev : ((d :: t).reverse).getLast? = some d := by
      rw [← List.head?_reverse, List.reverse_reverse, List.head?_cons]
    rw [← hpre] at hglrev
    rw [← hglrev]
    exact (List.getLast?_append_of_ne_nil pre hne).symm

/-- Taking at least one element preserves the head. -/
theorem head?_take {cs : List Char} {n : Nat} (h : 1 ≤ n) :
    (cs.take n).head? = cs.head? := by
  cases cs with
  | nil => simp
  | cons c t =>
    cases n with
    | zero => omega
    | succ m => simp

/-- The character found by `firstIdxOf` sits at the returned index. -/
theorem firstIdxOf_head : ∀ (cs : List Char) (c : Char) (i : Nat),
    firstIdxOf c cs = some i → (cs.drop i).head? = some c
  | [], c, i, h => by simp [firstIdxOf] at h
  | d :: cs, c, i, h => by
    unfold firstIdxOf at h
    split at h
    · next hd =>
      simp only [Option.some.injEq] at h
      subst h
      simp [hd]
    · cases hrec : firstIdxOf c cs with
      | none => rw [hrec] at h; simp at h
      | some i0 =>
        rw [hrec] at h
        simp only [Option.map_some', Option.some.injEq] at h
        subst h
        rw [List.drop_succ_cons]
        exact firstIdxOf_head cs c i0 hrec

/-- C1: on an input with no markdown code fence whose first `{` opens a
well-formed JSON object (arbitrary text before and after, string values
free to contain unbalanced braces and escapes), `extractAndParseJSON`
returns exactly that object text — the substring from the first `{` to its
matching `}` — because the depth-counted scan treats quoted material as
non-structural. -/
theorem extract_wellformed_object (s j post : List Char) (fb fuel : Nat)
    (hnofence : containsSeq bt3 (jsTrim s) = false)
    (hfb : firstIdxOf '{' (jsTrim s) = some fb)
    (hdecomp : (jsTrim s).drop fb = j ++ post)
    (hobj : objConsume fuel (j ++ post) = some post) :
    extractAndParseJSON s = .ok j := by
  obtain ⟨inner, hj, hi⟩ := objConsume_shape hobj
  have hjeq : j = '{' :: inner ++ ['}'] := List.append_cancel_right hj
  subst hjeq
  have hscan2 : scanLoop ('{' :: inner ++ ['}'] ++ post) 0 false false =
      some (inner.length + 2) := by
    have h0 := scanLoop_object hi post
    simpa using h0
  have hbe : braceExtract (jsTrim s) = '{' :: inner ++ ['}'] := by
    unfold braceExtract
    simp only [hfb, hdecomp, hscan2]
    rw [show inner.length + 2 = ('{' :: inner ++ ['}']).length from by simp]
    exact List.take_left _ _
  have hfj : fenceSearch fenceJson (jsTrim s) = none :=
    fenceSearch_none (S "json") (by decide) (jsTrim s) hnofence
  have hfa : fenceSearch bt3 (jsTrim s) = none :=
    fenceSearch_none [] (by decide) (jsTrim s) hnofence
  have hgl : ('{' :: inner ++ ['}']).getLast? = some '}' :=
    List.getLast?_concat _
  have hhd : ('{' :: inner ++ ['}']).head? = some '{' := by simp
  have htr : jsTrim ('{' :: inner ++ ['}']) = '{' :: inner ++ ['}'] := by
    refine jsTrim_eq_self ?_ ?_
    · intro c hc
      rw [hhd] at hc
      simp only [Option.some.injEq] at hc
      subst hc
      decide
    · intro c hc
      rw [hgl] at hc
      simp only [Option.some.injEq] at hc
      subst hc
      decide
  have hcand : candidateOf s = '{' :: inner ++ ['}'] := by
    unfold candidateOf
    simp only [hfj, hfa, hbe, htr]
    rw [if_pos hhd, if_pos hgl]
  unfold extractAndParseJSON
  rw [hcand]
  simp

/-- Witness for C1: prose on both sides, an inner string value holding an
unbalanced `{`, a nested array, and a stray closing brace in the trailing
prose; extraction returns exactly the object. -/
theorem extract_wellformed_object_witness :
    extractAndParseJSON (S "Course data: \x7b\"a\": \"x\x7b\", \"n\": [1, 2]\x7d tail\x7d") =
      .ok (S "\x7b\"a\": \"x\x7b\", \"n\": [1, 2]\x7d") :=
  extract_wellformed_object (S "Course data: \x7b\"a\": \"x\x7b\", \"n\": [1, 2]\x7d tail\x7d")
    (S "\x7b\"a\": \"x\x7b\", \"n\": [1, 2]\x7d") (S " tail\x7d") 13 50 (by decide) (by decide)
    (by decide) (by decide)

/-- C6: on a truncated input — no code fence, a first `{` present, and the
depth-counted scan reaching end-of-input before closing — extraction does
not fail: it returns a candidate taken from the first `{` onward (its head
is that `{`), and when `JSON.parse` rejects that candidate the pipeline
fails with the parse-failure error, not the empty-extraction error or any
other outcome. -/
theorem extract_truncated (s : List Char) (fb : Nat)
    (hnofence : containsSeq bt3 (jsTrim s) = false)
    (hfb : firstIdxOf '{' (jsTrim s) = some fb)
    (hscan : scanLoop ((jsTrim s).drop fb) 0 false false = none)
    (hparse : parseElementOk (candidateOf s) = false) :
    extractAndParseJSON s = .ok (candidateOf s) ∧
      (candidateOf s).head? = some '{' ∧
      extractThenParse s = .error GenError.parseFailed := by
  have hhd : ((jsTrim s).drop fb).head? = some '{' := firstIdxOf_head _ _ _ hfb
  have hfj : fenceSearch fenceJson (jsTrim s) = none :=
    fenceSearch_none (S "json") (by decide) (jsTrim s) hnofence
  have hfa : fenceSearch bt3 (jsTrim s) = none :=
    fenceSearch_none [] (by decide) (jsTrim s) hnofence
  have hbe : braceExtract (jsTrim s) = (jsTrim s).drop fb := by
    unfold braceExtract
    simp only [hfb, hscan]
  have h2 : (jsTrim ((jsTrim s).drop fb)).head? = some '{' :=
    jsTrim_head hhd (by decide)
  have hch : (candidateOf s).head? = some '{' := by
    unfold candidateOf
    simp only [hfj, hfa, hbe]
    rw [if_pos h2]
    split
    · exact h2
    · split
      · split
        · rw [head?_take (by omega)]
          exact h2
        · exact h2
      · exact h2
  have hne : (candidateOf s).isEmpty = false := by
    cases hc : candidateOf s with
    | nil => rw [hc] at hch; simp at hch
    | cons a t => simp
  have h1 : extractAndParseJSON s = .ok (candidateOf s) := by
    unfold extractAndParseJSON
    simp [hne]
  refine ⟨h1, hch, ?_⟩
  unfold extractThenParse
  rw [h1]
  simp [hparse]

/-- Witness for C6: the truncated object `{"a": 1` — extraction returns it
whole (its head is the `{`) and the pipeline fails as a parse failure. -/
theorem extract_truncated_witness :
    extractAndParseJSON (S "\x7b\"a\": 1") = .ok (candidateOf (S "\x7b\"a\": 1")) ∧
      (candidateOf (S "\x7b\"a\": 1")).head? = some '{' ∧
      extractThenParse (S "\x7b\"a\": 1") = .error GenError.parseFailed :=
  extract_truncated (S "\x7b\"a\": 1") 0 (by decide) (by decide) (by decide)
    (by decide)

/-- C5: when the (trimmed) input is prose (containing no backtick), then a
fenced block labeled json whose interior is a well-formed JSON object,
then arbitrary trailing prose, extraction returns the interior of the
fence verbatim. -/
theorem extract_json_fence (s pre body post : List Char) (fuel : Nat)
    (hdecomp : jsTrim s = pre ++ (fenceJson ++ '\n' :: (body ++ (nlBt3 ++ post))))
    (hpre : ∀ c ∈ pre, c ≠ '`')
    (hbody : containsSeq nlBt3 body = false)
    (hobj : objConsume fuel body = some []) :
    extractAndParseJSON s = .ok body := by
  obtain ⟨inner, hb, hi⟩ := objConsume_shape hobj
  rw [List.append_nil] at hb
  subst hb
  have hfence := tryFenceAt_fence '{' (inner ++ ['}']) post (by decide)
    (by simpa using hbody)
  have hsearch : fenceSearch fenceJson (jsTrim s) =
      some ('{' :: inner ++ ['}']) := by
    rw [hdecomp,
      fenceSearch_skip (show fenceJson = '`' :: ['`', '`', 'j', 's', 'o', 'n'] from rfl)
        pre hpre _]
    have hcons : fenceJson ++ '\n' :: ('{' :: inner ++ ['}'] ++ (nlBt3 ++ post)) =
        '`' :: ('`' :: '`' :: 'j' :: 's' :: 'o' :: 'n' ::
          '\n' :: ('{' :: inner ++ ['}'] ++ (nlBt3 ++ post))) := rfl
    rw [hcons, fenceSearch, ← hcons]
    have hfence2 : tryFenceAt fenceJson
        (fenceJson ++ '\n' :: ('{' :: inner ++ ['}'] ++ (nlBt3 ++ post))) =
          some ('{' :: inner ++ ['}']) := by
      have h0 := hfence
      simpa using h0
    simp only [hfence2]
  have hgl : ('{' :: inner ++ ['}']).getLast? = some '}' :=
    List.getLast?_concat _
  have hhd : ('{' :: inner ++ ['}']).head? = some '{' := by simp
  have htr : jsTrim ('{' :: inner ++ ['}']) = '{' :: inner ++ ['}'] := by
    refine jsTrim_eq_self ?_ ?_
    · intro c hc
      rw [hhd] at hc
      simp only [Option.some.injEq] at hc
      subst hc
      decide
    · intro c hc
      rw [hgl] at hc
      simp only [Option.some.injEq] at hc
      subst hc
      decide
  have hcand : candidateOf s = '{' :: inner ++ ['}'] := by
    unfold candidateOf
    simp only [hsearch, htr]
    rw [if_pos hhd, if_pos hgl]
  unfold extractAndParseJSON
  rw [hcand]
  simp

/-- Witness for C5: the spec's scenario — prose, a json fence holding
`{"title":"X","lessons":[]}`, prose after — extraction returns the
interior of the fence. -/
theorem extract_json_fence_witness :
    extractAndParseJSON
        (S "Here is your course:\n```json\n\x7b\"title\":\"X\",\"lessons\":[]\x7d\n```\nEnjoy!") =
      .ok (S "\x7b\"title\":\"X\",\"lessons\":[]\x7d") :=
  extract_json_fence
    (S "Here is your course:\n```json\n\x7b\"title\":\"X\",\"lessons\":[]\x7d\n```\nEnjoy!")
    (S "Here is your course:\n") (S "\x7b\"title\":\"X\",\"lessons\":[]\x7d")
    (S "\nEnjoy!") 50 (by decide) (by decide) (by decide) (by decide)

end Grokboard
